import Mathlib

/-!
Shallow embedding of `pandas/core/dtypes/cast.py` (dtype promotion and
nan-safe casting engine) and proofs about the claims of the specification.

Conventions of the embedding:
* numpy machine integers are modelled as `Int` with explicit wrap-around
  (`% 2^w`) where the code can overflow;
* numpy floating values are modelled exactly: a finite value is a rational,
  plus distinguished `nan` / `inf` / `-inf` elements (rounding of finite
  float arithmetic is not modelled; no claim depends on it);
* datetime64/timedelta64 arrays carry their nanosecond counts as `Int`,
  with the reserved sentinel `iNaT = -2^63` standing for NaT;
* Python `warnings.warn` side effects are returned explicitly as a list of
  warnings next to the result;
* raising code returns `Except`.
-/

namespace PandasCast

/-- Temporal resolution units used in this development. -/
inductive TUnit
  | s
  | ms
  | us
  | ns
deriving DecidableEq

/-- Number of nanoseconds in one tick of the unit. -/
def TUnit.ratio : TUnit → ℕ
  | .s => 1000000000
  | .ms => 1000000
  | .us => 1000
  | .ns => 1

/-- The numpy dtypes modelled here (64-bit platform).  `datetime64 none` /
`timedelta64 none` are the unit-less "bare family" dtypes `np.dtype("M8")` /
`np.dtype("m8")`. -/
inductive NpDtype
  | bool_
  | int8
  | int16
  | int32
  | int64
  | uint8
  | uint16
  | uint32
  | uint64
  | float16
  | float32
  | float64
  | complex64
  | complex128
  | object
  | datetime64 (unit : Option TUnit)
  | timedelta64 (unit : Option TUnit)
  | bytesS
  | strU
deriving DecidableEq

/-- numpy dtype kind characters. -/
inductive NpKind
  | b
  | i
  | u
  | f
  | c
  | O
  | M
  | m
  | S
  | U
deriving DecidableEq

def NpDtype.kind : NpDtype → NpKind
  | .bool_ => .b
  | .int8 | .int16 | .int32 | .int64 => .i
  | .uint8 | .uint16 | .uint32 | .uint64 => .u
  | .float16 | .float32 | .float64 => .f
  | .complex64 | .complex128 => .c
  | .object => .O
  | .datetime64 _ => .M
  | .timedelta64 _ => .m
  | .bytesS => .S
  | .strU => .U

/-- Models `dtype.itemsize` in bytes (0 for the flexible string dtypes). -/
def NpDtype.itemsize : NpDtype → ℕ
  | .bool_ => 1
  | .int8 => 1
  | .int16 => 2
  | .int32 => 4
  | .int64 => 8
  | .uint8 => 1
  | .uint16 => 2
  | .uint32 => 4
  | .uint64 => 8
  | .float16 => 2
  | .float32 => 4
  | .float64 => 8
  | .complex64 => 8
  | .complex128 => 16
  | .object => 8
  | .datetime64 _ => 8
  | .timedelta64 _ => 8
  | .bytesS => 0
  | .strU => 0

/-- Bit width of an integer dtype (8 for non-integers; unused there). -/
def NpDtype.intWidth : NpDtype → ℕ
  | .int8 | .uint8 => 8
  | .int16 | .uint16 => 16
  | .int32 | .uint32 => 32
  | .int64 | .uint64 => 64
  | _ => 8

/-- Bit width of a floating dtype. -/
def NpDtype.floatWidth : NpDtype → ℕ
  | .float16 => 16
  | .float32 => 32
  | .float64 => 64
  | _ => 64

/-- Bit width of a complex dtype. -/
def NpDtype.complexWidth : NpDtype → ℕ
  | .complex64 => 64
  | .complex128 => 128
  | _ => 128

/-- Models `is_integer_dtype` restricted to the numpy dtypes: kinds `i` and `u`. -/
def NpDtype.isIntegerDtype (d : NpDtype) : Bool :=
  d.kind = .i || d.kind = .u

/-- Models `is_unsigned_integer_dtype` for numpy dtypes. -/
def NpDtype.isUnsigned (d : NpDtype) : Bool :=
  d.kind = .u

/-- Models `issubclass(dtype.type, (bytes, str))`: the fixed-width string dtypes. -/
def NpDtype.isStringLike (d : NpDtype) : Bool :=
  d = .bytesS || d = .strU

/-- Models `np.number` subclass check: kinds `i`, `u`, `f`, `c`. -/
def NpDtype.isNumber (d : NpDtype) : Bool :=
  d.kind = .i || d.kind = .u || d.kind = .f || d.kind = .c

/-- pandas `is_string_dtype`: kinds `O`, `S`, `U` (note: true for object). -/
def NpDtype.isStringDtype (d : NpDtype) : Bool :=
  d.kind = .O || d.kind = .S || d.kind = .U

/-- Models `dtype.name in ("datetime64", "timedelta64")`: unit-less temporal dtypes. -/
def NpDtype.isUnitlessTemporal (d : NpDtype) : Bool :=
  d = .datetime64 none || d = .timedelta64 none

/-- Models `dtype.name` for the dtypes whose name appears in error messages. -/
def NpDtype.name : NpDtype → String
  | .bool_ => "bool"
  | .int8 => "int8"
  | .int16 => "int16"
  | .int32 => "int32"
  | .int64 => "int64"
  | .uint8 => "uint8"
  | .uint16 => "uint16"
  | .uint32 => "uint32"
  | .uint64 => "uint64"
  | .float16 => "float16"
  | .float32 => "float32"
  | .float64 => "float64"
  | .complex64 => "complex64"
  | .complex128 => "complex128"
  | .object => "object"
  | .datetime64 none => "datetime64"
  | .datetime64 (some _) => "datetime64[ns]"
  | .timedelta64 none => "timedelta64"
  | .timedelta64 (some _) => "timedelta64[ns]"
  | .bytesS => "bytes"
  | .strU => "str"

def signedOfWidth (w : ℕ) : NpDtype :=
  if w ≤ 8 then .int8 else if w ≤ 16 then .int16 else if w ≤ 32 then .int32 else .int64

def unsignedOfWidth (w : ℕ) : NpDtype :=
  if w ≤ 8 then .uint8 else if w ≤ 16 then .uint16 else if w ≤ 32 then .uint32 else .uint64

def floatOfWidth (w : ℕ) : NpDtype :=
  if w ≤ 16 then .float16 else if w ≤ 32 then .float32 else .float64

def complexOfPartWidth (w : ℕ) : NpDtype :=
  if w ≤ 32 then .complex64 else .complex128

/-- The smallest float width numpy's casting table accepts an integer of
width `w` into under "safe" casting (with numpy's rule that 64-bit
integers cast safely to float64 despite the 53-bit mantissa). -/
def minFloatWidthForInt (w : ℕ) : ℕ :=
  min (2 * w) 64

/-- Models `np.promote_types(signed of width sw, unsigned of width uw)`. -/
def promoteSignedUnsigned (sw uw : ℕ) : NpDtype :=
  if uw < sw then signedOfWidth sw
  else if uw ≤ 32 then signedOfWidth (2 * uw)
  else .float64

/-- Models `np.promote_types` restricted to the boolean / integer / floating /
complex / object dtypes (the only combinations `maybe_promote` feeds it).
Non-numeric kinds fall to object; those combinations are unreachable from
the call sites modelled here. -/
def promoteTypes (a b : NpDtype) : NpDtype :=
  if a = .object || b = .object then .object
  else if a = .bool_ then b
  else if b = .bool_ then a
  else
    match a.kind, b.kind with
    | .i, .i => signedOfWidth (max a.intWidth b.intWidth)
    | .u, .u => unsignedOfWidth (max a.intWidth b.intWidth)
    | .i, .u => promoteSignedUnsigned a.intWidth b.intWidth
    | .u, .i => promoteSignedUnsigned b.intWidth a.intWidth
    | .i, .f => floatOfWidth (max b.floatWidth (minFloatWidthForInt a.intWidth))
    | .u, .f => floatOfWidth (max b.floatWidth (minFloatWidthForInt a.intWidth))
    | .f, .i => floatOfWidth (max a.floatWidth (minFloatWidthForInt b.intWidth))
    | .f, .u => floatOfWidth (max a.floatWidth (minFloatWidthForInt b.intWidth))
    | .i, .c => complexOfPartWidth (max (b.complexWidth / 2) (minFloatWidthForInt a.intWidth))
    | .u, .c => complexOfPartWidth (max (b.complexWidth / 2) (minFloatWidthForInt a.intWidth))
    | .c, .i => complexOfPartWidth (max (a.complexWidth / 2) (minFloatWidthForInt b.intWidth))
    | .c, .u => complexOfPartWidth (max (a.complexWidth / 2) (minFloatWidthForInt b.intWidth))
    | .f, .f => floatOfWidth (max a.floatWidth b.floatWidth)
    | .f, .c => complexOfPartWidth (max a.floatWidth (b.complexWidth / 2))
    | .c, .f => complexOfPartWidth (max b.floatWidth (a.complexWidth / 2))
    | .c, .c => if a.complexWidth ≤ b.complexWidth then b else a
    | _, _ => .object

/-- Floating-point values, modelled exactly. -/
inductive FVal
  | finite (q : ℚ)
  | nan
  | inf
  | ninf
deriving DecidableEq

/-- Odd part of a natural number (divide out all factors of two). -/
def oddPart (n : ℕ) : ℕ :=
  if h : n = 0 then 0
  else if n % 2 = 0 then oddPart (n / 2) else n
termination_by n
decreasing_by
  exact Nat.div_lt_self (Nat.pos_of_ne_zero h) (by omega)

/-- Exact representability of a rational in a binary floating format with
`p` mantissa bits, smallest positive subnormal `2^(-sub)` and largest
finite value `M`.  `q` is representable iff `q * 2^sub` is an integer
whose odd part fits in `p` bits, and `|q| ≤ M`. -/
def floatExact (p sub : ℕ) (M : ℚ) (q : ℚ) : Bool :=
  if q = 0 then true
  else
    let y := q * (2 : ℚ) ^ sub
    if y.den = 1 then (oddPart y.num.natAbs < 2 ^ p) && (|q| ≤ M)
    else false

def f16Max : ℚ := 65504

def f32Max : ℚ := (2 - (2 : ℚ) ^ (-(23 : ℤ))) * 2 ^ (127 : ℕ)

/-- Models `np.min_scalar_type` for a Python float value. -/
def floatMinScalarType : FVal → NpDtype
  | .nan | .inf | .ninf => .float16
  | .finite q =>
    if floatExact 11 24 f16Max q then .float16
    else if floatExact 24 149 f32Max q then .float32
    else .float64

/-- Models `np.min_scalar_type` for a Python int value: positive values prefer the
unsigned kinds, negative values the signed kinds; values beyond 64 bits
fall to the object dtype. -/
def minScalarTypeInt (n : Int) : NpDtype :=
  if 0 ≤ n then
    if n < 2 ^ 8 then .uint8
    else if n < 2 ^ 16 then .uint16
    else if n < 2 ^ 32 then .uint32
    else if n < 2 ^ 64 then .uint64
    else .object
  else
    if -(2 ^ 7) ≤ n then .int8
    else if -(2 ^ 15) ≤ n then .int16
    else if -(2 ^ 31) ≤ n then .int32
    else if -(2 ^ 63) ≤ n then .int64
    else .object

/-- Models `np.min_scalar_type` for a complex value: complex64 when both parts fit
binary32 (non-finite parts always fit), else complex128. -/
def complexMinScalarType (re im : FVal) : NpDtype :=
  let fits : FVal → Bool
    | .finite q => floatExact 24 149 f32Max q
    | _ => true
  if fits re && fits im then .complex64 else .complex128

/-- Value-based `np.can_cast(pyint, dtype)`: does the integer fit the
integer dtype's range? -/
def intFitsDtype (n : Int) (d : NpDtype) : Bool :=
  match d with
  | .int8 => -(2 ^ 7) ≤ n && n < 2 ^ 7
  | .int16 => -(2 ^ 15) ≤ n && n < 2 ^ 15
  | .int32 => -(2 ^ 31) ≤ n && n < 2 ^ 31
  | .int64 => -(2 ^ 63) ≤ n && n < 2 ^ 63
  | .uint8 => 0 ≤ n && n < 2 ^ 8
  | .uint16 => 0 ≤ n && n < 2 ^ 16
  | .uint32 => 0 ≤ n && n < 2 ^ 32
  | .uint64 => 0 ≤ n && n < 2 ^ 64
  | _ => false

/-- Truncation toward zero (the C float→int conversion). -/
def truncRat (q : ℚ) : Int := if 0 ≤ q then q.floor else -((-q).floor)

def wrapToWidth (signed : Bool) (w : ℕ) (n : Int) : Int :=
  if signed then (n + 2 ^ (w - 1)).emod (2 ^ w) - 2 ^ (w - 1)
  else n.emod (2 ^ w)

/-- Integer conversion wraps modulo the target width. -/
def wrapToDtype (d : NpDtype) (n : Int) : Int :=
  match d.kind with
  | .i => wrapToWidth true d.intWidth n
  | .u => wrapToWidth false d.intWidth n
  | _ => n

/-- The value C float→int conversion produces for out-of-range /
non-finite inputs on x86 (INT_MIN of the target). -/
def intMinOf (d : NpDtype) : Int :=
  if d.kind = .i then -(2 ^ (d.intWidth - 1)) else 0

/-- Scalar values as they flow through `maybe_promote`.  `py*` are plain
Python values, `np*` are boxed numpy scalars.  `npDt64 none` / `npTd64
none` are `np.datetime64("NaT")` / `np.timedelta64("NaT")`; otherwise the
payload is the nanosecond count.  Strings are split by what the
calendar-aware parser behind the external `Timestamp` constructor does
with them: `pyDateStr` is a string the parser accepts, carrying its
parsed nanosecond instant, and `pyStr` is any other string (the parser
itself is collaborator code outside the modelled source). -/
inductive NumVal
  | i (n : Int)
  | f (x : FVal)
  | c (re im : FVal)
  | b (v : Bool)
deriving DecidableEq

inductive Scalar
  | pyInt (n : Int)
  | pyFloat (x : FVal)
  | pyBool (v : Bool)
  | pyComplex (re im : FVal)
  | pyStr (s : String)
  | pyDateStr (s : String) (v : Int)
  | pyNone
  | pdNA
  | pdNaT
  | pyDatetime (tzaware : Bool) (v : Int)
  | npDt64 (v : Option Int)
  | npTd64 (v : Option Int)
  | npNum (d : NpDtype) (v : NumVal)
deriving DecidableEq

/-- pandas `isna` on a scalar. -/
def Scalar.isna : Scalar → Bool
  | .pyFloat .nan => true
  | .pyComplex re im => re = .nan || im = .nan
  | .pyNone | .pdNA | .pdNaT => true
  | .npDt64 none | .npTd64 none => true
  | .npNum _ (.f .nan) => true
  | .npNum _ (.c re im) => re = .nan || im = .nan
  | _ => false

/-- Models `lib.is_integer`: a Python int or a boxed numpy integer (not bool). -/
def Scalar.isInteger : Scalar → Bool
  | .pyInt _ => true
  | .npNum d (.i _) => d.kind = .i || d.kind = .u
  | _ => false

/-- Models `lib.is_float`: a Python float or a boxed numpy floating scalar. -/
def Scalar.isFloat : Scalar → Bool
  | .pyFloat _ => true
  | .npNum d (.f _) => d.kind = .f
  | _ => false

/-- Models `lib.is_bool`. -/
def Scalar.isBool : Scalar → Bool
  | .pyBool _ => true
  | .npNum _ (.b _) => true
  | _ => false

/-- Models `lib.is_complex`. -/
def Scalar.isComplex : Scalar → Bool
  | .pyComplex _ _ => true
  | .npNum d (.c _ _) => d.kind = .c
  | _ => false

/-- Models `isinstance(fill_value, str)`. -/
def Scalar.isString : Scalar → Bool
  | .pyStr _ => true
  | .pyDateStr _ _ => true
  | _ => false

/-- Underlying float value of a float scalar.  The default arm is taken
only on non-float scalars; every call site guards with `isFloat`. -/
def Scalar.floatVal : Scalar → FVal
  | .pyFloat x => x
  | .npNum _ (.f x) => x
  | _ => .nan

/-- Underlying integer value of an integer scalar.  The default arm is
taken only on non-integer scalars; every call site guards with
`isInteger`. -/
def Scalar.intVal : Scalar → Int
  | .pyInt n => n
  | .npNum _ (.i n) => n
  | _ => 0

/-- Real part of a complex scalar.  The default arm is taken only on
non-complex scalars; every call site guards with `isComplex`. -/
def Scalar.complexRe : Scalar → FVal
  | .pyComplex re _ => re
  | .npNum _ (.c re _) => re
  | _ => .nan

/-- Imaginary part of a complex scalar.  The default arm is taken only on
non-complex scalars; every call site guards with `isComplex`. -/
def Scalar.complexIm : Scalar → FVal
  | .pyComplex _ im => im
  | .npNum _ (.c _ im) => im
  | _ => .nan

/-- Models `is_valid_nat_for_dtype` (pandas.core.dtypes.missing): a null scalar
compatible with the given dtype's NaT. -/
def isValidNaTForDtype (s : Scalar) (d : NpDtype) : Bool :=
  if !s.isna then false
  else
    match d.kind with
    | .M => match s with
            | .npTd64 _ => false
            | _ => true
    | .m => match s with
            | .npDt64 _ => false
            | _ => true
    | .i | .u | .f | .c =>
      match s with
      | .pdNaT | .npDt64 _ | .npTd64 _ => false
      | _ => true
    | _ => match s with
           | .npDt64 _ | .npTd64 _ => false
           | _ => true

/-- Models `Timestamp(fill_value).to_datetime64()` (`none` = the external
constructor raises TypeError/ValueError).  `Timestamp` accepts datetime64
scalars, datetimes and date strings the calendar parser accepts:
`pyDateStr` carries the instant such a string parses to, so a valid date
string fill keeps the datetime64 dtype in `maybe_promote` instead of
escalating to object; `pyStr` (a string the parser rejects) raises. -/
def timestampOf : Scalar → Option Int
  | .npDt64 (some v) => some v
  | .pyDatetime _ v => some v
  | .pyDateStr _ v => some v
  | _ => none

/-- Models `Timedelta(fill_value).to_timedelta64()` for the scalar shapes that can
reach it in `maybe_promote` (`none` = the constructor raises). -/
def timedeltaOf : Scalar → Option Int
  | .npTd64 (some v) => some v
  | _ => none

/-- The exact numeric value of a real-valued numeric scalar (`none` for
complex and non-numeric scalars).  Used to model the cross-kind numeric
conversions `dtype.type(value)` performs: integers and booleans convert
exactly, floats keep their value. -/
def scalarToFVal : Scalar → Option FVal
  | .pyFloat x => some x
  | .npNum _ (.f x) => some x
  | .pyInt n => some (.finite (n : ℚ))
  | .npNum _ (.i n) => some (.finite (n : ℚ))
  | .pyBool b => some (.finite (if b then 1 else 0))
  | .npNum _ (.b b) => some (.finite (if b then 1 else 0))
  | _ => none

/-- The value `dtype.type(value)` stores for a float dtype: numeric
scalars convert to their exact value, so `np.float32(5)` is the non-null
`5.0`.  Complex and non-numeric scalars never reach the boxing site from
`maybe_promote` (they escalate to object or to a complex dtype first);
the source would raise or parse on them, and the model maps them to
zero. -/
def toFloatValue (s : Scalar) : FVal :=
  match scalarToFVal s with
  | some x => x
  | none => .finite 0

/-- The value `dtype.type(value)` stores for an integer dtype: finite
numeric scalars truncate toward zero and wrap to the target width (the C
conversion).  `maybe_promote` only sends integer fills that fit here, so
truncation and wrapping are the identity on reachable inputs; non-finite
floats map to the C conversion's INT_MIN and non-numeric scalars (which
raise in the source and are unreachable) to zero. -/
def toIntValue (d : NpDtype) (s : Scalar) : Int :=
  match scalarToFVal s with
  | some (.finite q) => wrapToDtype d (truncRat q)
  | some _ => intMinOf d
  | none => 0

/-- The value `np.bool_(value)` stores: the truthiness of the scalar.
`maybe_promote` only sends boolean fills here (non-boolean fills escalate
a bool dtype to object); the other arms follow numpy's nonzero test, with
unreachable non-numeric scalars mapped to true. -/
def toBoolValue (s : Scalar) : Bool :=
  match s with
  | .pyComplex re im => !(re = FVal.finite 0 && im = FVal.finite 0)
  | .npNum _ (.c re im) => !(re = FVal.finite 0 && im = FVal.finite 0)
  | _ =>
    match scalarToFVal s with
    | some (.finite q) => decide (q ≠ 0)
    | _ => true

/-- The real and imaginary parts `dtype.type(value)` stores for a complex
dtype: complex scalars keep both parts, other numeric scalars convert to
(value, 0), so `np.complex64(5)` is `5+0j`.  Non-numeric scalars raise in
the source and never reach the boxing site; the model maps them to
zero. -/
def toComplexValue (s : Scalar) : FVal × FVal :=
  match s with
  | .pyComplex re im => (re, im)
  | .npNum _ (.c re im) => (re, im)
  | _ => (toFloatValue s, .finite 0)

/-- The value `np.datetime64(value)` stores: datetime64 scalars pass
through, datetimes keep their instant.  `maybe_promote`'s datetime64 arm
re-boxes every surviving fill through `Timestamp` before this point, so
only datetime64 scalars arrive here; the remaining arms are unreachable
and map to the epoch. -/
def toDt64Value (s : Scalar) : Option Int :=
  match s with
  | .npDt64 v => v
  | .pyDatetime _ v => some v
  | _ => some 0

/-- The value `np.timedelta64(value)` stores; as with `toDt64Value`, only
timedelta64 scalars can arrive here from `maybe_promote`. -/
def toTd64Value (s : Scalar) : Option Int :=
  match s with
  | .npTd64 v => v
  | _ => some 0

/-- Models `_ensure_dtype_type`'s boxing step `dtype.type(value)` minus the
extension-dtype arm (this development models `maybe_promote` on numpy
dtypes).  Numeric dtypes box the scalar's converted numeric value, so
cross-kind boxing converts rather than corrupts (an integer fill boxed
into a float dtype becomes the float of the same value); temporal dtypes
re-box temporal scalars.  Values for the object dtype are returned
unchanged. -/
def dtypeBox (d : NpDtype) (s : Scalar) : Scalar :=
  match d.kind with
  | .M => .npDt64 (toDt64Value s)
  | .m => .npTd64 (toTd64Value s)
  | .b => .npNum .bool_ (.b (toBoolValue s))
  | .i | .u => .npNum d (.i (toIntValue d s))
  | .f => .npNum d (.f (toFloatValue s))
  | .c => .npNum d (.c (toComplexValue s).1 (toComplexValue s).2)
  | _ => s

def ensure_dtype_type (value : Scalar) (dtype : NpDtype) : Scalar :=
  if dtype = .object then value
  else if value.isna then value
  else dtypeBox dtype value

/-- Core of `maybe_promote` (cast.py lines 527-639) for a numpy dtype and a
scalar fill value (the ndarray-fill normalisation of lines 509-525 and the
extension-dtype arms are outside the modelled fragment). -/
def maybePromoteCore (dtype : NpDtype) (fill : Scalar) : NpDtype × Scalar :=
  if dtype.kind = .M then
    match fill with
    | .pyDatetime true _ => (.object, fill)
    | _ =>
      if fill.isInteger || (fill.isFloat && !fill.isna) then (.object, fill)
      else if isValidNaTForDtype fill dtype then (dtype, .npDt64 none)
      else
        match timestampOf fill with
        | some v => (dtype, .npDt64 (some v))
        | none => (.object, fill)
  else if dtype.kind = .m then
    if fill.isInteger || (fill.isFloat && !fill.isna) || fill.isString then
      (.object, fill)
    else if isValidNaTForDtype fill dtype then (dtype, .npTd64 none)
    else
      match timedeltaOf fill with
      | some v => (dtype, .npTd64 (some v))
      | none => (.object, fill)
  else if fill.isFloat then
    if dtype = .bool_ then (.object, fill)
    else if dtype.isIntegerDtype then (.float64, fill)
    else if dtype.kind = .f then
      let mst := floatMinScalarType fill.floatVal
      if dtype.floatWidth < mst.floatWidth then (mst, fill) else (dtype, fill)
    else if dtype.kind = .c then
      (promoteTypes dtype (floatMinScalarType fill.floatVal), fill)
    else (dtype, fill)
  else if fill.isBool then
    if dtype = .bool_ then (dtype, fill) else (.object, fill)
  else if fill.isInteger then
    if dtype = .bool_ then (.object, fill)
    else if dtype.isIntegerDtype then
      if intFitsDtype fill.intVal dtype then (dtype, fill)
      else
        let mst := minScalarTypeInt fill.intVal
        let d2 := promoteTypes dtype mst
        if d2.kind = .f then (.object, fill) else (d2, fill)
    else (dtype, fill)
  else if fill.isComplex then
    if dtype = .bool_ then (.object, fill)
    else if dtype.isIntegerDtype || dtype.kind = .f then
      (promoteTypes dtype (complexMinScalarType fill.complexRe fill.complexIm), fill)
    else if dtype.kind = .c then
      let mst := complexMinScalarType fill.complexRe fill.complexIm
      if dtype.complexWidth < mst.complexWidth then (mst, fill) else (dtype, fill)
    else (dtype, fill)
  else if fill = .pyNone || fill = .pdNA then
    if dtype.kind = .f || dtype.kind = .c then (dtype, .pyFloat .nan)
    else if dtype.isIntegerDtype then (.float64, .pyFloat .nan)
    else if fill = .pdNA then (.object, fill)
    else (.object, .pyFloat .nan)
  else (.object, fill)

/-- The dtype `maybe_promote` settles on: the rule table's dtype, with the
fixed-width-string fallback to object (line 643). -/
def promotedDtype (dtype : NpDtype) (fill : Scalar) : NpDtype :=
  if (maybePromoteCore dtype fill).1.isStringLike then .object
  else (maybePromoteCore dtype fill).1

/-- Models `maybe_promote(dtype, fill_value)` for numpy dtypes and scalar fills:
the rule table, then the fixed-width-string fallback to object (line 643),
then `_ensure_dtype_type`. -/
def maybe_promote (dtype : NpDtype) (fill : Scalar) : NpDtype × Scalar :=
  (promotedDtype dtype fill,
   ensure_dtype_type (maybePromoteCore dtype fill).2 (promotedDtype dtype fill))

/-- An integer `n` is a dyadic rational with mantissa below `2^p` and
magnitude at most `cap`: exact representability of `n` in a binary
floating format with `p` mantissa bits and largest finite value `cap`. -/
def dyadicFits (p : ℕ) (cap : ℕ) (n : Int) : Prop :=
  n.natAbs ≤ cap ∧ ∃ (m : Int) (k : ℕ), n = m * 2 ^ k ∧ m.natAbs < 2 ^ p

/-- Meaning of "dtype `d` losslessly holds the integer value `n`": the value-domain
order underlying the promotion lattice, restricted to integer points. -/
def dtypeHoldsInt : NpDtype → Int → Prop
  | .bool_, n => n = 0 ∨ n = 1
  | .int8, n => -(2 ^ 7) ≤ n ∧ n < 2 ^ 7
  | .int16, n => -(2 ^ 15) ≤ n ∧ n < 2 ^ 15
  | .int32, n => -(2 ^ 31) ≤ n ∧ n < 2 ^ 31
  | .int64, n => -(2 ^ 63) ≤ n ∧ n < 2 ^ 63
  | .uint8, n => 0 ≤ n ∧ n < 2 ^ 8
  | .uint16, n => 0 ≤ n ∧ n < 2 ^ 16
  | .uint32, n => 0 ≤ n ∧ n < 2 ^ 32
  | .uint64, n => 0 ≤ n ∧ n < 2 ^ 64
  | .float16, n => dyadicFits 11 65504 n
  | .float32, n => dyadicFits 24 ((2 ^ 24 - 1) * 2 ^ 104) n
  | .float64, n => dyadicFits 53 ((2 ^ 53 - 1) * 2 ^ 971) n
  | .complex64, n => dyadicFits 24 ((2 ^ 24 - 1) * 2 ^ 104) n
  | .complex128, n => dyadicFits 53 ((2 ^ 53 - 1) * 2 ^ 971) n
  | .object, _ => True
  | _, _ => False

/-- Models `isinstance(value, dtype.type)` for the modelled scalars: a boxed numpy
scalar is an instance of exactly its own dtype's scalar type (all
datetime64 units share `np.datetime64`, all timedelta64 units
`np.timedelta64`); plain Python values are instances of no numpy scalar
type. -/
def scalarIsInstanceOf (s : Scalar) (d : NpDtype) : Bool :=
  match s with
  | .npNum d' _ => d' = d
  | .npDt64 _ => d.kind = .M
  | .npTd64 _ => d.kind = .m
  | _ => false

/-! ### Arrays and nan-safe casting -/

/-- The reserved integer NaT sentinel (`iNaT`). -/
def iNaT : Int := -(2 ^ 63)

/-- Array element storage: integer counts (also backing datetime64 /
timedelta64), floats, booleans, complex pairs, or boxed objects. -/
inductive Cell
  | i (n : Int)
  | f (x : FVal)
  | b (v : Bool)
  | cx (re im : FVal)
  | o (s : Scalar)
deriving DecidableEq

/-- A one-dimensional homogeneous numpy array: a dtype plus its elements. -/
structure NpArray where
  dtype : NpDtype
  cells : List Cell
deriving DecidableEq

/-- pandas `isna`, elementwise: NaT counts for temporal kinds, NaN for
floating/complex kinds, null scalars for the object kind. -/
def isnaCell (d : NpDtype) (c : Cell) : Bool :=
  match d.kind, c with
  | .M, .i n => n = iNaT
  | .m, .i n => n = iNaT
  | .f, .f x => x = .nan
  | .c, .cx re im => re = .nan || im = .nan
  | .O, .o s => s.isna
  | _, _ => false

/-- The Python-level comparison value of an array element (used by `==`,
`<` and `np.allclose`): a finite number, an infinity, a non-self-equal
null (NaN / NaT), a string, or an opaque object compared structurally. -/
inductive CmpVal
  | fin (q : ℚ)
  | pinf
  | ninf
  | nanv
  | strv (s : String)
  | obj (s : Scalar)
deriving DecidableEq

def fvalCmp : FVal → CmpVal
  | .finite q => .fin q
  | .inf => .pinf
  | .ninf => .ninf
  | .nan => .nanv

/-- Numeric value of a scalar, when it has one. -/
def scalarNumQ : Scalar → Option ℚ
  | .pyInt n => some (n : ℚ)
  | .pyFloat (.finite q) => some q
  | .pyBool v => some (if v then 1 else 0)
  | .npNum _ (.i n) => some (n : ℚ)
  | .npNum _ (.f (.finite q)) => some q
  | .npNum _ (.b v) => some (if v then 1 else 0)
  | _ => none

def scalarCmp (s : Scalar) : CmpVal :=
  match scalarNumQ s with
  | some q => .fin q
  | none =>
    match s with
    | .pyFloat x => fvalCmp x
    | .npNum _ (.f x) => fvalCmp x
    | .pyStr t => .strv t
    | .pyDateStr t _ => .strv t
    | .pyNone => .obj .pyNone
    | _ => if s.isna then .nanv else .obj s

def cellCmp (d : NpDtype) (c : Cell) : CmpVal :=
  match c with
  | .i n =>
    if d.kind = .M || d.kind = .m then (if n = iNaT then .nanv else .fin (n : ℚ))
    else .fin (n : ℚ)
  | .f x => fvalCmp x
  | .b v => .fin (if v then 1 else 0)
  | .cx re im => if im = .finite 0 then fvalCmp re else .obj (.pyComplex re im)
  | .o s => scalarCmp s

/-- Elementwise `==` between two array elements. -/
def cellEq (d1 : NpDtype) (c1 : Cell) (d2 : NpDtype) (c2 : Cell) : Bool :=
  match cellCmp d1 c1, cellCmp d2 c2 with
  | .fin a, .fin b => a = b
  | .pinf, .pinf => true
  | .ninf, .ninf => true
  | .strv a, .strv b => a = b
  | .obj a, .obj b => a = b
  | _, _ => false

/-- Elementwise `np.allclose` test with `rtol=0` and numpy's default
absolute tolerance `1e-8` (`equal_nan=False`). -/
def cellClose (d1 : NpDtype) (c1 : Cell) (d2 : NpDtype) (c2 : Cell) : Bool :=
  match cellCmp d1 c1, cellCmp d2 c2 with
  | .fin a, .fin b => |a - b| ≤ 1 / 100000000
  | .pinf, .pinf => true
  | .ninf, .ninf => true
  | _, _ => false

def cellLtZero (d : NpDtype) (c : Cell) : Bool :=
  match cellCmp d c with
  | .fin q => q < 0
  | .ninf => true
  | _ => false

/-- Models `np.array_equal`: equal shapes and elementwise `==` everywhere. -/
def arrayEqualNp (a b : NpArray) : Bool :=
  a.cells.length = b.cells.length &&
    (List.zip a.cells b.cells).all (fun p => cellEq a.dtype p.1 b.dtype p.2)

/-- Models `np.allclose(a, b, rtol=0)`. -/
def allcloseRtol0 (a b : NpArray) : Bool :=
  a.cells.length = b.cells.length &&
    (List.zip a.cells b.cells).all (fun p => cellClose a.dtype p.1 b.dtype p.2)

/-- Boxing of an array element on cast to the object dtype (temporal
counts become structured instant/duration scalars, numerics become numpy
scalars). -/
def boxCell (src : NpDtype) (c : Cell) : Scalar :=
  match c with
  | .i n =>
    match src.kind with
    | .M => if n = iNaT then .pdNaT else .npDt64 (some n)
    | .m => if n = iNaT then .pdNaT else .npTd64 (some n)
    | _ => .npNum src (.i n)
  | .f x => .npNum src (.f x)
  | .b v => .npNum .bool_ (.b v)
  | .cx re im => .npNum src (.c re im)
  | .o s => s

/-- A printable form of an element (string targets; the exact text is
irrelevant to every claim and abstracted). -/
def cellStr : Cell → String
  | .i n => toString n
  | .f (.finite q) => toString q
  | .f .nan => "nan"
  | .f .inf => "inf"
  | .f .ninf => "-inf"
  | .b v => if v then "True" else "False"
  | .cx _ _ => "complex"
  | .o _ => "object"

/-- numpy temporal unit of a dtype. -/
def NpDtype.temporalUnit : NpDtype → Option TUnit
  | .datetime64 u => u
  | .timedelta64 u => u
  | _ => none

/-- numpy conversion of a nanosecond count to the target unit: NaT is
preserved, the generic (unit-less) target keeps counts, a concrete
coarser target floor-divides by the unit ratio. -/
def convertNsCount (target : Option TUnit) (n : Int) : Int :=
  if n = iNaT then iNaT
  else
    match target with
    | none => n
    | some u => n.fdiv u.ratio

/-- Elementwise `ndarray.astype` value conversion (no error checking; see
`npAstypeChecked`). -/
def castCellTo (src target : NpDtype) (c : Cell) : Cell :=
  match target.kind with
  | .i | .u =>
    match c with
    | .i n => .i (wrapToDtype target n)
    | .f (.finite q) => .i (wrapToDtype target (truncRat q))
    | .f _ => .i (intMinOf target)
    | .b v => .i (if v then 1 else 0)
    | .cx (.finite q) _ => .i (wrapToDtype target (truncRat q))
    | .cx _ _ => .i (intMinOf target)
    | .o s =>
      match scalarNumQ s with
      | some q => .i (wrapToDtype target (truncRat q))
      | none => .i 0
  | .f =>
    match c with
    | .i n => .f (.finite (n : ℚ))
    | .f x => .f x
    | .b v => .f (.finite (if v then 1 else 0))
    | .cx re _ => .f re
    | .o s =>
      match scalarNumQ s with
      | some q => .f (.finite q)
      | none => .f .nan
  | .b =>
    match cellCmp src c with
    | .fin q => .b (q ≠ 0)
    | _ => .b true
  | .c =>
    match c with
    | .i n => .cx (.finite (n : ℚ)) (.finite 0)
    | .f x => .cx x (.finite 0)
    | .b v => .cx (.finite (if v then 1 else 0)) (.finite 0)
    | .cx re im => .cx re im
    | .o s =>
      match scalarNumQ s with
      | some q => .cx (.finite q) (.finite 0)
      | none => .cx .nan (.finite 0)
  | .M | .m =>
    match c with
    | .i n => .i (convertNsCount target.temporalUnit n)
    | .f (.finite q) => .i (truncRat q)
    | .f _ => .i iNaT
    | .b v => .i (if v then 1 else 0)
    | .cx _ _ => .i iNaT
    | .o s =>
      match s with
      | .npDt64 (some v) => .i v
      | .npTd64 (some v) => .i v
      | _ => .i iNaT
  | .O => .o (boxCell src c)
  | .S | .U => .o (.pyStr (cellStr c))

/-- Python warnings emitted as side effects. -/
inductive Warn
  | futureWarning (msg : String)
deriving DecidableEq

/-- Raised Python exceptions. -/
inductive PdErr
  | valueError (msg : String)
  | typeError (msg : String)
  | overflowError (msg : String)
deriving DecidableEq

deriving instance DecidableEq for Except

def npAstypeValue (arr : NpArray) (target : NpDtype) : NpArray :=
  ⟨target, arr.cells.map (castCellTo arr.dtype target)⟩

/-- The conversion error `np.array(...)` / `ndarray.astype` raises for an
element, if any: Python ints beyond 64 bits overflow, null / non-numeric
objects cannot convert to integers. -/
def cellCastError (target : NpDtype) (c : Cell) : Option PdErr :=
  if target.isIntegerDtype then
    match c with
    | .o (.pyInt n) =>
      if n < -(2 ^ 63) || 2 ^ 64 ≤ n then
        some (.overflowError "Python int too large to convert to C long")
      else none
    | .o s =>
      if s.isna then some (.valueError "cannot convert float NaN to integer")
      else if (scalarNumQ s).isNone then some (.valueError "invalid literal for int")
      else none
    | _ => none
  else none

/-- Models `ndarray.astype` with its possible element conversion errors. -/
def npAstypeChecked (arr : NpArray) (target : NpDtype) : Except PdErr NpArray :=
  match arr.cells.findSome? (cellCastError target) with
  | some e => .error e
  | none => .ok (npAstypeValue arr target)

/-- Models `astype_td64_unit_conversion` (cast.py lines 984-1014): equal dtypes
return the input (the copy flag only affects sharing, not values);
otherwise convert to the target unit (integer division of the
nanosecond counts), convert that to float64, and re-apply the source
null mask with `np.putmask`. -/
def astype_td64_unit_conversion (values : NpArray) (dtype : NpDtype)
    (copy : Bool) : NpArray :=
  if values.dtype = dtype then values
  else
    let step1 := values.cells.map (fun c =>
      match c with
      | .i n => Cell.i (convertNsCount dtype.temporalUnit n)
      | c => c)
    let step2 := step1.map (fun c =>
      match c with
      | .i n => Cell.f (.finite (n : ℚ))
      | c => c)
    let mask := values.cells.map (isnaCell values.dtype)
    ⟨.float64, List.zipWith (fun m c => if m then Cell.f .nan else c) mask step2⟩

/-- Models `arr.astype(dtype)` for a datetime64 source and datetime64 target
("allow frequency conversions"). -/
def dt64AstypeUnits (arr : NpArray) (dtype : NpDtype) : NpArray :=
  ⟨dtype, arr.cells.map (fun c =>
    match c with
    | .i n => Cell.i (convertNsCount dtype.temporalUnit n)
    | c => c)⟩

/-- The deprecation message for datetimelike→int64 astype (the Python
format string interpolates the source dtype name). -/
def castDeprMsg (src : NpDtype) : String :=
  "casting " ++ src.name ++ " values to int64 with .astype(...) is " ++
    "deprecated and will raise in a future version. Use .view(...) instead."

/-- The missing-unit message (the Python message additionally wraps the
dtype names in single quotes). -/
def missingUnitMsg (nm : String) : String :=
  "The " ++ nm ++ " dtype has no unit. Please pass in " ++ nm ++ "[ns] instead."

/-- Modelled from the spec: temporal source to string/object target
converts via structured scalar boxing (`ensure_wrapped_if_datetimelike`
followed by the datetimelike array's `.astype`, which is repository code
not under `src/`). -/
def temporalToObject (arr : NpArray) (dtype : NpDtype) : NpArray :=
  if dtype = .object then
    ⟨.object, arr.cells.map (fun c => Cell.o (boxCell arr.dtype c))⟩
  else
    ⟨.object, arr.cells.map (fun c =>
      if isnaCell arr.dtype c then Cell.o .pdNaT else Cell.o (.pyStr (cellStr c)))⟩

/-- Modelled from the spec: `lib.ensure_string_array` (repository code not
under `src/`) — per-element string representation into an object array;
nulls pass through untouched when `skipna`. -/
def ensureStringArray (arr : NpArray) (skipna : Bool) : NpArray :=
  ⟨.object, arr.cells.map (fun c =>
    if isnaCell arr.dtype c && skipna then c else Cell.o (.pyStr (cellStr c)))⟩

/-- Modelled from the spec: object source re-inferred as a well-typed
temporal array (`to_datetime` / `to_timedelta`, repository code not under
`src/`): temporal scalars and nulls become nanosecond counts, anything
else fails the inference. -/
def objToTemporalCounts (isDt : Bool) (arr : NpArray) : Except PdErr NpArray :=
  let conv : Cell → Option Int := fun c =>
    match c with
    | .o (.npDt64 (some v)) => if isDt then some v else none
    | .o (.npTd64 (some v)) => if isDt then none else some v
    | .o s => if s.isna then some iNaT else none
    | _ => none
  match arr.cells.mapM conv with
  | some counts =>
    .ok ⟨if isDt then .datetime64 (some .ns) else .timedelta64 (some .ns),
         counts.map Cell.i⟩
  | none => .error (.valueError "could not infer temporal values")

/-- Models `lib.astype_intsafe` (repository code not under `src/`): elementwise
conversion of an object array to an integer dtype, raising on elements
that cannot convert. -/
def astypeIntsafe (arr : NpArray) (dtype : NpDtype) : Except PdErr NpArray :=
  npAstypeChecked arr dtype

/-- Is the element a finite float (`np.isfinite`)? -/
def cellFinite : Cell → Bool
  | .f (.finite _) => true
  | .f _ => false
  | _ => true

/-- The common tail of `astype_nansafe` (lines 1129-1140): the unit-less
temporal dtype check, then the final `arr.astype`. -/
def astypeFinish (arr : NpArray) (dtype : NpDtype) (copy : Bool) :
    Except PdErr NpArray :=
  if dtype.isUnitlessTemporal then
    .error (.valueError (missingUnitMsg dtype.name))
  else npAstypeChecked arr dtype

/-- The `is_datetime64_dtype(arr)` branch of `astype_nansafe` (lines
1067-1085): int64 target warns, rejects NaT, and returns a view of the
counts; datetime64 targets are frequency conversions; all other targets
raise. -/
def astypeFromDt64 (arr : NpArray) (dtype : NpDtype) (copy : Bool) :
    List Warn × Except PdErr NpArray :=
  if dtype = .int64 then
    ([Warn.futureWarning (castDeprMsg arr.dtype)],
     if arr.cells.any (isnaCell arr.dtype) then
       .error (.valueError "Cannot convert NaT values to integer")
     else .ok ⟨.int64, arr.cells⟩)
  else if dtype.kind = .M then
    ([], .ok (dt64AstypeUnits arr dtype))
  else
    ([], .error (.typeError ("cannot astype a datetimelike from [" ++
      arr.dtype.name ++ "] to [" ++ dtype.name ++ "]")))

/-- The `is_timedelta64_dtype(arr)` branch of `astype_nansafe` (lines
1087-1104). -/
def astypeFromTd64 (arr : NpArray) (dtype : NpDtype) (copy : Bool) :
    List Warn × Except PdErr NpArray :=
  if dtype = .int64 then
    ([Warn.futureWarning (castDeprMsg arr.dtype)],
     if arr.cells.any (isnaCell arr.dtype) then
       .error (.valueError "Cannot convert NaT values to integer")
     else .ok ⟨.int64, arr.cells⟩)
  else if dtype.kind = .m then
    ([], .ok (astype_td64_unit_conversion arr dtype copy))
  else
    ([], .error (.typeError ("cannot astype a timedelta from [" ++
      arr.dtype.name ++ "] to [" ++ dtype.name ++ "]")))

/-- Models `astype_nansafe` (cast.py lines 1017-1140) for one-dimensional arrays
and numpy target dtypes (the n-dimensional flatten/reshape wrapper and
the extension-dtype delegation of lines 1038-1051 are outside the
modelled fragment).  Warnings are returned next to the result; raising
paths return `.error`.  The object→temporal arms re-infer a temporal
array and re-enter the corresponding datetimelike branch, exactly as the
source's recursive call does. -/
def astype_nansafe (arr : NpArray) (dtype : NpDtype) (copy skipna : Bool) :
    List Warn × Except PdErr NpArray :=
  if (arr.dtype.kind = .M || arr.dtype.kind = .m) &&
      (dtype = .strU || dtype = .object) then
    ([], .ok (temporalToObject arr dtype))
  else if dtype = .strU then
    ([], .ok (ensureStringArray arr skipna))
  else if arr.dtype.kind = .M then
    astypeFromDt64 arr dtype copy
  else if arr.dtype.kind = .m then
    astypeFromTd64 arr dtype copy
  else if arr.dtype.kind = .f && dtype.isIntegerDtype then
    if !(arr.cells.all cellFinite) then
      ([], .error (.valueError
        "Cannot convert non-finite values (NA or inf) to integer"))
    else ([], astypeFinish arr dtype copy)
  else if arr.dtype = .object then
    if dtype.isIntegerDtype then ([], astypeIntsafe arr dtype)
    else if dtype.kind = .M then
      match objToTemporalCounts true arr with
      | .ok a2 => astypeFromDt64 a2 dtype copy
      | .error e => ([], .error e)
    else if dtype.kind = .m then
      match objToTemporalCounts false arr with
      | .ok a2 => astypeFromTd64 a2 dtype copy
      | .error e => ([], .error e)
    else ([], astypeFinish arr dtype copy)
  else ([], astypeFinish arr dtype copy)

/-- A datetime64[ns] array from its nanosecond counts. -/
def mkDt64Ns (xs : List Int) : NpArray := ⟨.datetime64 (some .ns), xs.map Cell.i⟩

/-- A timedelta64[ns] array from its nanosecond counts. -/
def mkTd64Ns (xs : List Int) : NpArray := ⟨.timedelta64 (some .ns), xs.map Cell.i⟩

/-! ### Strict integer casting (`maybe_cast_to_integer_array`) -/

/-- Models `maybe_cast_to_integer_array(arr, dtype, copy)` (cast.py lines
1742-1811).  The attempted conversion's own OverflowError is re-raised
with the dtype name; equal round-trips are returned; unequal ones raise
for negative-into-unsigned and for float/object sources — and otherwise
the Python function falls off its end, returning `None` (modelled as
`.ok none`). -/
def maybe_cast_to_integer_array (arr : NpArray) (dtype : NpDtype)
    (copy : Bool) : Except PdErr (Option NpArray) :=
  match npAstypeChecked arr dtype with
  | .error _ =>
    .error (.overflowError
      ("The elements provided in the data cannot all be casted to the dtype "
        ++ dtype.name))
  | .ok casted =>
    if arrayEqualNp arr casted then .ok (some casted)
    else if dtype.isUnsigned && arr.cells.any (cellLtZero arr.dtype) then
      .error (.overflowError "Trying to coerce negative values to unsigned integers")
    else if arr.dtype.kind = .f || arr.dtype = .object then
      .error (.valueError "Trying to coerce float values to integers")
    else .ok none

/-! ### Numeric downcasting (`maybe_downcast_numeric`) -/

/-- pandas dtypes as `maybe_downcast_numeric` and `find_common_type` see
them: numpy dtypes or extension dtypes.  Extension dtypes are identified
by an index; their capabilities are injected (§6 of the spec: the core
depends only on the capability interface, not on concrete extensions). -/
inductive Dtype
  | np (d : NpDtype)
  | ext (id : ℕ)
deriving DecidableEq

def Dtype.isExt : Dtype → Bool
  | .ext _ => true
  | _ => false

/-- Round half to even (`ndarray.round()`), elementwise on float cells. -/
def roundHalfEven (q : ℚ) : ℚ :=
  let fl : Int := q.floor
  if q - fl < 1 / 2 then fl
  else if 1 / 2 < q - fl then fl + 1
  else if fl % 2 = 0 then fl else fl + 1

def roundCell : Cell → Cell
  | .f (.finite q) => .f (.finite (roundHalfEven q))
  | c => c

def roundArr (arr : NpArray) : NpArray :=
  ⟨arr.dtype, arr.cells.map roundCell⟩

/-- Models `isinstance(r[0], (np.integer, np.floating, int, float, bool))`: is
the first element a plain numeric comparable?  Note `np.bool_` (the
element type of boolean arrays) and complex values are not in the tuple. -/
def isNumComparable (d : NpDtype) (c : Cell) : Bool :=
  match c with
  | .i _ => true
  | .f _ => true
  | .b _ => false
  | .cx _ _ => false
  | .o s =>
    match s with
    | .pyInt _ => true
    | .pyFloat _ => true
    | .pyBool _ => true
    | .npNum d' _ => d'.kind = .i || d'.kind = .u || d'.kind = .f
    | _ => false

/-- Models `(a == b).all()` (elementwise equality, same shape). -/
def arrayEqAll (a b : NpArray) : Bool :=
  (List.zip a.cells b.cells).all (fun p => cellEq a.dtype p.1 b.dtype p.2)

/-- Models `maybe_downcast_numeric(result, dtype, do_round)` (cast.py lines
251-317).  Value-level model; the only raising path is the `astype` of an
object array whose elements cannot convert, which propagates. -/
def maybe_downcast_numeric (result : NpArray) (dtype : Dtype)
    (do_round : Bool) : Except PdErr NpArray :=
  match dtype with
  | .ext _ => .ok result
  | .np dt =>
    if dt.kind = result.dtype.kind
        && decide (result.dtype.itemsize ≤ dt.itemsize)
        && !(result.cells.isEmpty) then
      .ok result
    else if dt = .bool_ || dt.isIntegerDtype then
      match result.cells with
      | [] => npAstypeChecked (if do_round then roundArr result else result) dt
      | c0 :: _ =>
        if isnaCell result.dtype c0 then .ok result
        else if !(isNumComparable result.dtype c0) then .ok result
        else if (result.dtype = .object || result.dtype.isNumber)
            && result.cells.all (fun c => !(isnaCell result.dtype c)) then
          match npAstypeChecked (if do_round then roundArr result else result) dt with
          | .error e => .error e
          | .ok newResult =>
            if newResult.dtype.kind = .O || result.dtype.kind = .O then
              if arrayEqAll newResult result then .ok newResult else .ok result
            else
              if allcloseRtol0 newResult result then .ok newResult else .ok result
        else .ok result
    else if dt.kind = .f && !(result.dtype = .bool_)
        && !(result.dtype.isStringDtype) then
      npAstypeChecked result dt
    else .ok result

/-! ### N-ary join (`find_common_type`) -/

/-- Implements `dict.fromkeys`-style deduplication keeping the first occurrence of
each element. -/
def orderedDedup [DecidableEq α] (l : List α) : List α :=
  go l []
where
  go : List α → List α → List α
    | [], _ => []
    | a :: rest, seen =>
      if a ∈ seen then go rest seen else a :: go rest (a :: seen)

/-- Models `np.can_cast(a, b, casting="safe")` between the modelled dtypes
(numpy's casting table: kind-respecting widening, unsigned into strictly
wider signed, integers into floats of at least the doubled width — capped
at 64, where numpy accepts the lossy 64-bit integer → float64 cast —
everything into object). -/
def canCastSafe (a b : NpDtype) : Bool :=
  if b = .object then true
  else if a = b then true
  else
    match a.kind, b.kind with
    | .b, .i | .b, .u | .b, .f | .b, .c => true
    | .i, .i => a.intWidth ≤ b.intWidth
    | .u, .u => a.intWidth ≤ b.intWidth
    | .u, .i => a.intWidth < b.intWidth
    | .i, .f | .u, .f => minFloatWidthForInt a.intWidth ≤ b.floatWidth
    | .i, .c | .u, .c => minFloatWidthForInt a.intWidth ≤ b.complexWidth / 2
    | .f, .f => a.floatWidth ≤ b.floatWidth
    | .f, .c => a.floatWidth ≤ b.complexWidth / 2
    | .c, .c => a.complexWidth ≤ b.complexWidth
    | _, _ => false

/-- The fixed candidate order `np.find_common_type` walks (numpy's
`__test_types`), restricted to the modelled dtype universe on a 64-bit
platform (platform aliases `l/q/p`, `L/Q/P` collapse; the extended
precision `g/G` types are outside the universe and can never be the first
match for inputs drawn from it). -/
def npTestTypes : List NpDtype :=
  [.bool_, .int8, .int16, .int32, .int64,
   .uint8, .uint16, .uint32, .uint64,
   .float16, .float32, .float64, .complex64, .complex128,
   .bytesS, .strU, .object]

/-- Models `np.find_common_type(types, [])`: a one-element list returns its
element; otherwise the first candidate every input safely casts to
(object, which accepts everything, is the final candidate). -/
def npFindCommonType (types : List NpDtype) : NpDtype :=
  match types with
  | [] => .object
  | [t] => t
  | _ =>
    match npTestTypes.find? (fun t => types.all (fun x => canCastSafe x t)) with
    | some t => t
    | none => .object

def Dtype.toNp : Dtype → Option NpDtype
  | .np d => some d
  | .ext _ => none

/-- pandas `is_datetime64_dtype` on a Dtype (true for any datetime64
unit, including the unit-less family). -/
def isDt64D : Dtype → Bool
  | .np (.datetime64 _) => true
  | _ => false

def isTd64D : Dtype → Bool
  | .np (.timedelta64 _) => true
  | _ => false

def isBoolD : Dtype → Bool
  | .np .bool_ => true
  | _ => false

/-- Models `is_integer_dtype(t) or is_float_dtype(t) or is_complex_dtype(t)`. -/
def isNumKindD : Dtype → Bool
  | .np d => d.kind = .i || d.kind = .u || d.kind = .f || d.kind = .c
  | _ => false

/-- The `for t in types: ... t._get_common_dtype(types)` loop: the first
non-null answer of an extension dtype's common-dtype capability. -/
def firstExtCommon (cap : ℕ → List Dtype → Option Dtype) (all : List Dtype) :
    List Dtype → Option Dtype
  | [] => none
  | t :: rest =>
    match t with
    | .ext e =>
      match cap e all with
      | some res => some res
      | none => firstExtCommon cap all rest
    | _ => firstExtCommon cap all rest

/-- Models `find_common_type(types)` (cast.py lines 1554-1606), parameterised by
the injected extension capability `cap` (the "common dtype with list"
contract of §6): empty input raises; all-equal input returns the first
element; otherwise deduplicate preserving first occurrences, dispatch to
extension capabilities in order, collapse all-datetime64 / all-timedelta64
lists to the nanosecond dtype, send bool-with-numeric mixes to object,
and fall back to numpy's common-type walk. -/
def find_common_type (cap : ℕ → List Dtype → Option Dtype)
    (types : List Dtype) : Except PdErr Dtype :=
  match types with
  | [] => .error (.valueError "no types given")
  | first :: rest =>
    if rest.all (fun t => t = first) then .ok first
    else
      let uniq := orderedDedup (first :: rest)
      if uniq.any Dtype.isExt then
        match firstExtCommon cap uniq uniq with
        | some res => .ok res
        | none => .ok (.np .object)
      else if uniq.all isDt64D then .ok (.np (.datetime64 (some .ns)))
      else if uniq.all isTd64D then .ok (.np (.timedelta64 (some .ns)))
      else if uniq.any isBoolD && uniq.any isNumKindD then .ok (.np .object)
      else .ok (.np (npFindCommonType (uniq.filterMap Dtype.toNp)))

/-- A concrete pair of extension capabilities exercising the in-order
extension dispatch of `find_common_type`: extension 1 answers int64,
extension 2 answers float64 (both are legal implementations of the
"common dtype with list" contract of §6). -/
def capEx : ℕ → List Dtype → Option Dtype := fun e _ =>
  if e = 1 then some (.np .int64) else some (.np .float64)

/-- A float64 array from finite rational values. -/
def mkFloat64 (qs : List ℚ) : NpArray :=
  ⟨.float64, qs.map (fun q => Cell.f (.finite q))⟩

/-- An object array of Python floats. -/
def mkObjFloats (qs : List ℚ) : NpArray :=
  ⟨.object, qs.map (fun q => Cell.o (.pyFloat (.finite q)))⟩

/-- The value `2^53 + 1` is an odd integer above the binary64 mantissa range, hence
not exactly representable in float64. -/
theorem not_dtypeHoldsInt_float64_pow53succ : ¬ dtypeHoldsInt .float64 (2 ^ 53 + 1) := by
  rintro ⟨-, m, k, heq, hm⟩
  have h53 : (2 : Int) ^ 53 = 9007199254740992 := by norm_num
  cases k with
  | zero =>
    rw [pow_zero, mul_one] at heq
    rw [← heq] at hm
    rw [h53] at heq
    omega
  | succ j =>
    have hdvd : (2 : Int) ∣ 2 ^ 53 + 1 := ⟨m * 2 ^ j, by rw [heq, pow_succ]; ring⟩
    obtain ⟨c, hc⟩ := hdvd
    rw [h53] at hc
    omega

/-- Boxing a value with `dtype.type` yields an instance of that dtype's
scalar type (for non-object, non-string dtypes). -/
theorem dtypeBox_isInstance (d : NpDtype) (s : Scalar) (h1 : d ≠ .object)
    (h2 : d.isStringLike = false) : scalarIsInstanceOf (dtypeBox d s) d = true := by
  cases d <;>
    simp_all [dtypeBox, scalarIsInstanceOf, NpDtype.kind, NpDtype.isStringLike]

/-- C1 (counterexample): `maybe_promote(int32, 2^40)` does not return the
int64 dtype: the resulting dtype is object. -/
theorem maybe_promote_int32_pow40_counterexample :
    (maybe_promote .int32 (.pyInt (2 ^ 40))).1 = .object
      ∧ NpDtype.object ≠ NpDtype.int64 := by decide

/-- C1 (amended): `maybe_promote(int32, 2^40) = (object, 2^40)`.  The
minimal scalar type of the non-negative `2^40` is the unsigned `uint64`;
joining `int32` with `uint64` crosses to `float64`, and on that kind
crossing `maybe_promote` escalates to object instead of accepting the
float ("Case where we disagree with numpy"). -/
theorem maybe_promote_int32_pow40_object :
    maybe_promote .int32 (.pyInt (2 ^ 40)) = (.object, .pyInt (2 ^ 40))
      ∧ minScalarTypeInt (2 ^ 40) = .uint64
      ∧ promoteTypes .int32 .uint64 = .float64 := by decide

/-- C2 (counterexample): promoting the int64 dtype with the generic null
marker returns float64 with a NaN fill, and float64 does not losslessly
hold every int64 value: `2^53 + 1` is in int64's domain but not exactly
representable in float64. -/
theorem promotion_lossless_counterexample :
    maybe_promote .int64 .pdNA = (.float64, .pyFloat .nan)
      ∧ dtypeHoldsInt .int64 (2 ^ 53 + 1)
      ∧ ¬ dtypeHoldsInt .float64 (2 ^ 53 + 1) := by
  refine ⟨by decide, by norm_num [dtypeHoldsInt], not_dtypeHoldsInt_float64_pow53succ⟩

/-- C2 (amended): promoting a 64-bit integer dtype with the generic null
marker yields `(float64, NaN)`: the result dtype holds the null sentinel
appropriate to it (NaN), but it does not represent the whole int64 value
domain without loss. -/
theorem promotion_null_marker_int64_amended :
    maybe_promote .int64 .pdNA = (.float64, .pyFloat .nan)
      ∧ (Scalar.pyFloat .nan).isna = true
      ∧ ¬ ∀ n : Int, dtypeHoldsInt .int64 n → dtypeHoldsInt .float64 n := by
  refine ⟨by decide, rfl, fun h => ?_⟩
  exact not_dtypeHoldsInt_float64_pow53succ
    (h (2 ^ 53 + 1) (by norm_num [dtypeHoldsInt]))

/-- C3 (counterexample): `maybe_promote(float32, NaN)` keeps float32 (which
is neither object nor an extension dtype) but returns the fill value as
the plain Python float NaN, which is not an instance of float32's scalar
type `np.float32` (`_ensure_dtype_type` deliberately skips null values:
"keep np.nan rather than try to cast to np.float32(np.nan)"). -/
theorem fill_boxing_nan_counterexample :
    maybe_promote .float32 (.pyFloat .nan) = (.float32, .pyFloat .nan)
      ∧ scalarIsInstanceOf (.pyFloat .nan) .float32 = false
      ∧ NpDtype.float32 ≠ NpDtype.object := by decide

/-- C3 (amended): the returned fill value is correctly boxed for the
returned dtype except when that dtype is object (or an extension dtype,
outside this fragment) or when the fill value is a null value — null
fills are returned unboxed. -/
theorem fill_boxing_amended (d : NpDtype) (v : Scalar)
    (h1 : (maybe_promote d v).1 ≠ .object)
    (h2 : ((maybe_promote d v).2).isna = false) :
    scalarIsInstanceOf (maybe_promote d v).2 (maybe_promote d v).1 = true := by
  have hfst : (maybe_promote d v).1 = promotedDtype d v := rfl
  have hsnd : (maybe_promote d v).2
      = ensure_dtype_type (maybePromoteCore d v).2 (promotedDtype d v) := rfl
  rw [hfst] at h1
  rw [hsnd] at h2
  rw [hfst, hsnd]
  unfold ensure_dtype_type at h2 ⊢
  by_cases ho : promotedDtype d v = NpDtype.object
  · exact absurd ho h1
  rw [if_neg ho] at h2 ⊢
  by_cases hna : (maybePromoteCore d v).2.isna = true
  · rw [if_pos hna] at h2
    rw [hna] at h2
    exact absurd h2 (by simp)
  rw [if_neg hna]
  refine dtypeBox_isInstance _ _ ho ?_
  unfold promotedDtype at ho ⊢
  by_cases hp : (maybePromoteCore d v).1.isStringLike = true
  · rw [if_pos hp] at ho
    exact absurd rfl ho
  · rw [if_neg hp]
    exact Bool.eq_false_iff.mpr hp

/-- C3 (amended, witness): instantiations at `(int16, 7)` (kept dtype,
fill boxed as a numpy int16 scalar), at `(float32, 5)` (integer fill
cross-boxed to the non-null `np.float32(5.0)`), and at `(datetime64[ns],
parseable date string)` (kept dtype, fill boxed as the parsed
`np.datetime64`). -/
theorem fill_boxing_amended_witness :
    ((maybe_promote .int16 (.pyInt 7)).1 ≠ .object
      ∧ ((maybe_promote .int16 (.pyInt 7)).2).isna = false
      ∧ scalarIsInstanceOf (maybe_promote .int16 (.pyInt 7)).2
          (maybe_promote .int16 (.pyInt 7)).1 = true)
    ∧ (maybe_promote .float32 (.pyInt 5)
          = (.float32, .npNum .float32 (.f (.finite 5)))
      ∧ scalarIsInstanceOf (maybe_promote .float32 (.pyInt 5)).2
          (maybe_promote .float32 (.pyInt 5)).1 = true)
    ∧ (maybe_promote (.datetime64 (some .ns))
          (.pyDateStr "2020-01-01" 1577836800000000000)
          = (.datetime64 (some .ns), .npDt64 (some 1577836800000000000))
      ∧ scalarIsInstanceOf
          (maybe_promote (.datetime64 (some .ns))
            (.pyDateStr "2020-01-01" 1577836800000000000)).2
          (maybe_promote (.datetime64 (some .ns))
            (.pyDateStr "2020-01-01" 1577836800000000000)).1 = true) :=
  ⟨⟨by decide, by decide,
    fill_boxing_amended .int16 (.pyInt 7) (by decide) (by decide)⟩,
   ⟨by decide,
    fill_boxing_amended .float32 (.pyInt 5) (by decide) (by decide)⟩,
   ⟨by decide,
    fill_boxing_amended (.datetime64 (some .ns))
      (.pyDateStr "2020-01-01" 1577836800000000000)
      (by decide) (by decide)⟩⟩

/-- Helper: on a datetime64[ns]-backed count list, elementwise `isna` is
the NaT test. -/
theorem any_isna_map_dt64 (xs : List Int) :
    ((xs.map Cell.i).any (isnaCell (NpDtype.datetime64 (some TUnit.ns))))
      = xs.any fun x => decide (x = iNaT) := by
  induction xs with
  | nil => rfl
  | cons x xs ih =>
    simp only [List.map_cons, List.any_cons, ih]
    rfl

/-- Helper: `astype_nansafe` on a datetime64[ns] source with int64 target
reduces to the deprecation warning plus the NaT check and the int64 view. -/
theorem astype_dt64_int64_eq (xs : List Int) (copy skipna : Bool) :
    astype_nansafe (mkDt64Ns xs) .int64 copy skipna
      = ([Warn.futureWarning (castDeprMsg (.datetime64 (some .ns)))],
         if xs.any (fun x => decide (x = iNaT)) then
           .error (.valueError "Cannot convert NaT values to integer")
         else .ok ⟨.int64, xs.map Cell.i⟩) := by
  have h1 : astype_nansafe (mkDt64Ns xs) .int64 copy skipna
      = astypeFromDt64 (mkDt64Ns xs) .int64 copy := by
    simp [astype_nansafe, mkDt64Ns, NpDtype.kind]
  rw [h1, astypeFromDt64]
  rw [if_pos rfl]
  rw [show ((mkDt64Ns xs).cells.any (isnaCell (mkDt64Ns xs).dtype))
      = xs.any (fun x => decide (x = iNaT)) from any_isna_map_dt64 xs]
  rcases hx : xs.any fun x => decide (x = iNaT) with _ | _
  · rw [if_neg (by simp [hx]), if_neg (by simp [hx])]
    rfl
  · rw [if_pos (by simp [hx]), if_pos (by simp [hx])]
    rfl

/-- C5 (confirmed): casting a datetime64[ns] array to the int64 dtype with
`astype_nansafe` raises the non-finite-class error (ValueError "Cannot
convert NaT values to integer") iff the source contains at least one
null; when no null is present it returns the backing nanosecond counts
reinterpreted as int64 (the same counts, a view) and emits the
deprecation FutureWarning. -/
theorem astype_dt64_to_int64_spec (xs : List Int) (copy skipna : Bool) :
    ((astype_nansafe (mkDt64Ns xs) .int64 copy skipna).2 =
        .error (.valueError "Cannot convert NaT values to integer") ↔ iNaT ∈ xs)
  ∧ (iNaT ∉ xs →
      astype_nansafe (mkDt64Ns xs) .int64 copy skipna =
        ([Warn.futureWarning (castDeprMsg (.datetime64 (some .ns)))],
         .ok ⟨.int64, xs.map Cell.i⟩)) := by
  constructor
  · rw [astype_dt64_int64_eq xs copy skipna]
    by_cases hx : (xs.any fun x => decide (x = iNaT)) = true
    · rw [if_pos hx]
      obtain ⟨x, hxm, hxe⟩ := List.any_eq_true.mp hx
      simp only [decide_eq_true_eq] at hxe
      subst hxe
      simp [hxm]
    · rw [if_neg hx]
      constructor
      · intro h
        exact absurd h (by simp)
      · intro hm
        exact absurd (List.any_eq_true.mpr ⟨iNaT, hm, by simp⟩) hx
  · intro hni
    rw [astype_dt64_int64_eq xs copy skipna]
    rw [if_neg (fun hx => by
      obtain ⟨x, hxm, hxe⟩ := List.any_eq_true.mp hx
      simp only [decide_eq_true_eq] at hxe
      exact hni (hxe ▸ hxm))]

/-- C5 (witness): the two-element NaT-free array `[0, 5]`. -/
theorem astype_dt64_to_int64_spec_witness :
    ((astype_nansafe (mkDt64Ns [0, 5]) .int64 true false).2 =
        .error (.valueError "Cannot convert NaT values to integer") ↔ iNaT ∈ [0, 5])
  ∧ astype_nansafe (mkDt64Ns [0, 5]) .int64 true false =
      ([Warn.futureWarning (castDeprMsg (.datetime64 (some .ns)))],
       .ok ⟨.int64, [Cell.i 0, Cell.i 5]⟩) :=
  ⟨(astype_dt64_to_int64_spec [0, 5] true false).1,
   ((astype_dt64_to_int64_spec [0, 5] true false).2 (by decide)).trans (by rfl)⟩

/-- Helper: the three-step cell pipeline of the timedelta64 unit
conversion (convert unit, convert to float, re-apply the null mask) in
closed form. -/
theorem td64_cells_aux (u : TUnit) (xs : List Int) :
    List.zipWith (fun m c => if m = true then Cell.f FVal.nan else c)
      ((xs.map Cell.i).map (isnaCell (NpDtype.timedelta64 (some TUnit.ns))))
      (((xs.map Cell.i).map (fun c =>
          match c with
          | Cell.i n =>
            Cell.i (convertNsCount (NpDtype.timedelta64 (some u)).temporalUnit n)
          | c => c)).map (fun c =>
          match c with
          | Cell.i n => Cell.f (FVal.finite (n : ℚ))
          | c => c))
      = xs.map (fun x =>
          if x = iNaT then Cell.f .nan
          else Cell.f (.finite ((x.fdiv u.ratio : Int) : ℚ))) := by
  induction xs with
  | nil => rfl
  | cons x xs ih =>
    simp only [List.map_cons, List.zipWith_cons_cons]
    rw [ih]
    by_cases hx : x = iNaT
    · subst hx
      simp [isnaCell, NpDtype.kind]
    · have h1 : isnaCell (NpDtype.timedelta64 (some TUnit.ns)) (Cell.i x) = false := by
        simp [isnaCell, NpDtype.kind, hx]
      rw [h1]
      simp [convertNsCount, hx, NpDtype.temporalUnit]

/-- Helper: value-level characterisation of the timedelta64[ns] →
timedelta64[u] unit conversion. -/
theorem td64_conv_cells (xs : List Int) (u : TUnit) (copy : Bool)
    (h : NpDtype.timedelta64 (some TUnit.ns) ≠ NpDtype.timedelta64 (some u)) :
    astype_td64_unit_conversion (mkTd64Ns xs) (.timedelta64 (some u)) copy
      = ⟨.float64, xs.map (fun x =>
          if x = iNaT then Cell.f .nan
          else Cell.f (.finite ((x.fdiv u.ratio : Int) : ℚ)))⟩ := by
  simp only [astype_td64_unit_conversion, mkTd64Ns]
  rw [if_neg h]
  exact congrArg _ (td64_cells_aux u xs)

/-- C6 (amended): converting a nanosecond duration array to a coarser
declared resolution yields a float64 array whose null positions are
exactly the source null positions, and whose non-null elements are the
floor-divided counts converted to float — the integer division by the
unit ratio happens before the float conversion, so non-divisible counts
are truncated rather than giving the exact quotient. -/
theorem td64_unit_conversion_amended (xs : List Int) (u : TUnit)
    (hu : u ≠ TUnit.ns) (copy skipna : Bool) :
    astype_nansafe (mkTd64Ns xs) (.timedelta64 (some u)) copy skipna
      = ([], .ok ⟨.float64, xs.map (fun x =>
          if x = iNaT then Cell.f .nan
          else Cell.f (.finite ((x.fdiv u.ratio : Int) : ℚ)))⟩)
  ∧ (xs.map (fun x =>
        if x = iNaT then Cell.f .nan
        else Cell.f (.finite ((x.fdiv u.ratio : Int) : ℚ)))).map
          (isnaCell .float64)
      = (mkTd64Ns xs).cells.map (isnaCell (.timedelta64 (some .ns))) := by
  constructor
  · have h1 : astype_nansafe (mkTd64Ns xs) (.timedelta64 (some u)) copy skipna
        = astypeFromTd64 (mkTd64Ns xs) (.timedelta64 (some u)) copy := by
      simp [astype_nansafe, mkTd64Ns, NpDtype.kind]
    have h2 : astypeFromTd64 (mkTd64Ns xs) (.timedelta64 (some u)) copy
        = ([], .ok (astype_td64_unit_conversion (mkTd64Ns xs)
            (.timedelta64 (some u)) copy)) := by
      simp [astypeFromTd64, NpDtype.kind]
    rw [h1, h2, td64_conv_cells xs u copy
      (fun heq => hu (by injection heq with h3; injection h3 with h4; exact h4.symm))]
  · simp only [mkTd64Ns, List.map_map]
    refine List.map_congr_left fun x _ => ?_
    by_cases hx : x = iNaT
    · simp [hx, isnaCell, NpDtype.kind, Function.comp]
    · simp [hx, isnaCell, NpDtype.kind, Function.comp]

/-- C6 (counterexample): converting the single duration 1500000000 ns
(1.5 s) to timedelta64[s] yields the float 1.0 — the truncated integer
quotient — whereas the claim requires the exact quotient
1500000000 / 10^9 = 1.5. -/
theorem td64_unit_conversion_counterexample :
    astype_nansafe (mkTd64Ns [1500000000]) (.timedelta64 (some .s)) true false
      = ([], .ok ⟨.float64, [Cell.f (.finite 1)]⟩)
  ∧ ((1500000000 : ℚ) / ((TUnit.s.ratio : ℕ) : ℚ) ≠ (1 : ℚ)) := by
  constructor
  · decide
  · norm_num [TUnit.ratio]

/-- C6 (amended, witness): `[2 s, NaT]` in nanoseconds converted to
seconds resolution. -/
theorem td64_unit_conversion_amended_witness :
    astype_nansafe (mkTd64Ns [2000000000, iNaT]) (.timedelta64 (some .s)) true false
      = ([], .ok ⟨.float64, [Cell.f (.finite 2), Cell.f .nan]⟩) :=
  ((td64_unit_conversion_amended [2000000000, iNaT] .s (by decide) true false).1).trans
    (by decide)

/-- C8 (code_bug): the docstring of `astype_nansafe` promises a ValueError
whenever the target dtype is a unit-less datetime64/timedelta64, but a
datetime64[ns] source cast to the unit-less datetime64 target completes
through the "allow frequency conversions" branch (line 1082) before the
unit check at line 1129 is reached — no error and no warning are
produced.  A non-temporal (int64) source does reach the check and raises
the missing-unit error, as the claim describes. -/
theorem astype_unitless_dt64_bug_eval :
    astype_nansafe (mkDt64Ns [1577836800000000000]) (.datetime64 none) true false
      = ([], .ok ⟨.datetime64 none, [Cell.i 1577836800000000000]⟩)
  ∧ astype_nansafe ⟨.int64, [Cell.i 1]⟩ (.datetime64 none) true false
      = ([], .error (.valueError (missingUnitMsg "datetime64"))) := by
  constructor
  · decide
  · decide

/-- Helper: the base shape of `maybe_cast_to_integer_array` once the
attempted conversion succeeded. -/
theorem maybe_cast_base (arr : NpArray) (dtype : NpDtype) (casted : NpArray)
    (copy : Bool) (hc : npAstypeChecked arr dtype = .ok casted) :
    maybe_cast_to_integer_array arr dtype copy
      = (if arrayEqualNp arr casted = true then .ok (some casted)
         else if (dtype.isUnsigned && arr.cells.any (cellLtZero arr.dtype)) = true then
           .error (.overflowError "Trying to coerce negative values to unsigned integers")
         else if (arr.dtype.kind = .f || arr.dtype = .object) = true then
           .error (.valueError "Trying to coerce float values to integers")
         else .ok none) := by
  simp only [maybe_cast_to_integer_array, hc]

/-- C7 (confirmed): when the direct conversion succeeds but yields values
unequal to the originals, `maybe_cast_to_integer_array` raises
OverflowError if the target is unsigned and some original value is
negative, and otherwise raises the precision-loss ValueError if the
original array is of floating or object dtype. -/
theorem cast_to_int_error_spec (arr : NpArray) (dtype : NpDtype) (casted : NpArray)
    (copy : Bool)
    (hc : npAstypeChecked arr dtype = .ok casted)
    (hne : arrayEqualNp arr casted = false) :
    ((dtype.isUnsigned && arr.cells.any (cellLtZero arr.dtype)) = true →
      maybe_cast_to_integer_array arr dtype copy
        = .error (.overflowError "Trying to coerce negative values to unsigned integers"))
  ∧ ((dtype.isUnsigned && arr.cells.any (cellLtZero arr.dtype)) = false →
      (arr.dtype.kind = .f ∨ arr.dtype = .object) →
      maybe_cast_to_integer_array arr dtype copy
        = .error (.valueError "Trying to coerce float values to integers")) := by
  constructor
  · intro h1
    rw [maybe_cast_base arr dtype casted copy hc, if_neg (by simp [hne]), if_pos h1]
  · intro h1 h2
    rw [maybe_cast_base arr dtype casted copy hc, if_neg (by simp [hne]),
      if_neg (by simp [h1]), if_pos (by rcases h2 with h2 | h2 <;> simp [h2])]

/-- C7 (witness): `[-1] → uint64` raises OverflowError (the conversion
wraps to `2^64 - 1`, failing the equality check); `[1.5, 2.0] → int64`
raises the precision-loss ValueError. -/
theorem cast_to_int_error_spec_witness :
    maybe_cast_to_integer_array ⟨.int64, [Cell.i (-1)]⟩ .uint64 false
      = .error (.overflowError "Trying to coerce negative values to unsigned integers")
  ∧ maybe_cast_to_integer_array
        ⟨.float64, [Cell.f (.finite (3 / 2)), Cell.f (.finite 2)]⟩ .int64 false
      = .error (.valueError "Trying to coerce float values to integers") := by
  constructor
  · exact (cast_to_int_error_spec ⟨.int64, [Cell.i (-1)]⟩ .uint64
      ⟨.uint64, [Cell.i 18446744073709551615]⟩ false (by decide) (by decide)).1 (by decide)
  · exact (cast_to_int_error_spec
      ⟨.float64, [Cell.f (.finite (3 / 2)), Cell.f (.finite 2)]⟩ .int64
      ⟨.int64, [Cell.i 1, Cell.i 2]⟩ false (by with_unfolding_all decide)
      (by with_unfolding_all decide)).2 (by decide) (Or.inl rfl)

/-- C10 (confirmed): when the converted values differ from the originals
but the original array is neither floating nor object dtype and the
negative-into-unsigned condition does not hold, the function falls off
its end and returns Python's implicit `None` — neither an array nor an
exception. -/
theorem cast_to_int_fallthrough_none (arr : NpArray) (dtype : NpDtype)
    (casted : NpArray) (copy : Bool)
    (hc : npAstypeChecked arr dtype = .ok casted)
    (hne : arrayEqualNp arr casted = false)
    (hns : (dtype.isUnsigned && arr.cells.any (cellLtZero arr.dtype)) = false)
    (hkf : arr.dtype.kind ≠ NpKind.f) (hko : arr.dtype ≠ NpDtype.object) :
    maybe_cast_to_integer_array arr dtype copy = .ok none := by
  rw [maybe_cast_base arr dtype casted copy hc, if_neg (by simp [hne]),
    if_neg (by simp [hns]), if_neg (by simp [hkf, hko])]

/-- C10 (witness): `int64 [128] → int8` wraps to `[-128]`, is unequal,
is not negative-into-unsigned and not float/object — so the result is
`None`. -/
theorem cast_to_int_fallthrough_none_witness :
    maybe_cast_to_integer_array ⟨.int64, [Cell.i 128]⟩ .int8 false = .ok none :=
  cast_to_int_fallthrough_none ⟨.int64, [Cell.i 128]⟩ .int8
    ⟨.int8, [Cell.i (-128)]⟩ false (by decide) (by decide) (by decide)
    (by decide) (by decide)

/-- Helper: `findSome?` over a mapped list all of whose images yield
`none`. -/
theorem findSome?_map_none {α β γ : Type} (f : α → β) (g : β → Option γ)
    (h : ∀ x, g (f x) = none) (l : List α) :
    List.findSome? g (l.map f) = none := by
  induction l with
  | nil => rfl
  | cons x xs ih =>
    rw [List.map_cons]
    show (match g (f x) with
          | some b => some b
          | none => List.findSome? g (xs.map f)) = none
    rw [h x]
    exact ih

/-- Helper: all elements of a mapped list are non-null when every image
is. -/
theorem all_notna_map (d : NpDtype) (f : ℚ → Cell)
    (h : ∀ q, isnaCell d (f q) = false) (qs : List ℚ) :
    (qs.map f).all (fun c => !(isnaCell d c)) = true := by
  induction qs with
  | nil => rfl
  | cons q qs ih => simp [h q, ih]

/-- Helper: the branch of `maybe_downcast_numeric` that reaches the
round-trip comparison, with every guard value supplied as a hypothesis:
the result is the converted array if the comparison (exact for
object-kind, allclose(rtol=0) otherwise) accepts it, else the input. -/
theorem maybe_downcast_numeric_reduce (result : NpArray) (dt : NpDtype)
    (c0 : Cell) (rest : List Cell) (hc : result.cells = c0 :: rest)
    (h1 : (dt.kind = result.dtype.kind
        && decide (result.dtype.itemsize ≤ dt.itemsize)
        && !(result.cells.isEmpty)) = false)
    (h2 : (dt = NpDtype.bool_ || dt.isIntegerDtype) = true)
    (h3 : isnaCell result.dtype c0 = false)
    (h4 : isNumComparable result.dtype c0 = true)
    (h5 : ((result.dtype = NpDtype.object || result.dtype.isNumber)
        && (c0 :: rest).all (fun c => !(isnaCell result.dtype c))) = true)
    (new : NpArray) (hok : npAstypeChecked result dt = .ok new) :
    maybe_downcast_numeric result (.np dt) false
      = .ok (if new.dtype.kind = NpKind.O || result.dtype.kind = NpKind.O
             then (if arrayEqAll new result then new else result)
             else (if allcloseRtol0 new result then new else result)) := by
  simp only [maybe_downcast_numeric]
  rw [h1]
  rw [if_neg (by simp)]
  rw [h2, if_pos rfl]
  rw [hc]
  dsimp only
  rw [h3]
  rw [if_neg (by simp)]
  rw [h4]
  rw [if_neg (by simp)]
  rw [h5, if_pos rfl]
  rw [if_neg (show ¬((false : Bool) = true) from by simp)]
  rw [hok]
  dsimp only
  split_ifs <;> rfl

/-- Helper (C9, numeric comparison path): downcasting a non-empty no-null
float64 array to an integer target reduces to the allclose(rtol=0)
round-trip acceptance test. -/
theorem downcast_float_clause (qs : List ℚ) (q0 : ℚ) (dt : NpDtype)
    (hdt : dt.isIntegerDtype = true) :
    maybe_downcast_numeric (mkFloat64 (q0 :: qs)) (.np dt) false
      = .ok (if allcloseRtol0 (npAstypeValue (mkFloat64 (q0 :: qs)) dt)
                (mkFloat64 (q0 :: qs))
             then npAstypeValue (mkFloat64 (q0 :: qs)) dt
             else mkFloat64 (q0 :: qs)) := by
  have hkf : dt.kind ≠ NpKind.f := by
    cases dt <;> simp_all [NpDtype.isIntegerDtype, NpDtype.kind]
  have hkO : dt.kind ≠ NpKind.O := by
    cases dt <;> simp_all [NpDtype.isIntegerDtype, NpDtype.kind]
  have hcell : ∀ q : ℚ, cellCastError dt (Cell.f (.finite q)) = none := by
    intro q
    unfold cellCastError
    by_cases hb : dt.isIntegerDtype = true
    · rw [if_pos hb]
    · rw [if_neg hb]
  have hok : npAstypeChecked (mkFloat64 (q0 :: qs)) dt
      = .ok (npAstypeValue (mkFloat64 (q0 :: qs)) dt) := by
    have hfs : List.findSome? (cellCastError dt) (mkFloat64 (q0 :: qs)).cells = none :=
      findSome?_map_none _ _ hcell (q0 :: qs)
    unfold npAstypeChecked
    rw [hfs]
  have h1 : (dt.kind = (mkFloat64 (q0 :: qs)).dtype.kind
      && decide ((mkFloat64 (q0 :: qs)).dtype.itemsize ≤ dt.itemsize)
      && !((mkFloat64 (q0 :: qs)).cells.isEmpty)) = false := by
    have hd : (decide (dt.kind = (mkFloat64 (q0 :: qs)).dtype.kind)) = false :=
      decide_eq_false (fun h => hkf h)
    rw [hd]
    rfl
  have h5 : (((mkFloat64 (q0 :: qs)).dtype = NpDtype.object
        || (mkFloat64 (q0 :: qs)).dtype.isNumber)
      && ((Cell.f (.finite q0)) :: qs.map (fun q => Cell.f (.finite q))).all
          (fun c => !(isnaCell (mkFloat64 (q0 :: qs)).dtype c))) = true := by
    exact Bool.and_eq_true _ _ ▸
      ⟨rfl, all_notna_map .float64 (fun q => Cell.f (.finite q)) (fun _ => rfl) (q0 :: qs)⟩
  have base := maybe_downcast_numeric_reduce (mkFloat64 (q0 :: qs)) dt
    (Cell.f (.finite q0)) (qs.map (fun q => Cell.f (.finite q))) rfl
    h1 (by simp [hdt]) rfl rfl h5
    (npAstypeValue (mkFloat64 (q0 :: qs)) dt) hok
  rw [base]
  rw [if_neg (by
    intro hcontra
    rcases (Bool.or_eq_true _ _) ▸ hcontra with h | h
    · rw [decide_eq_true_eq] at h
      rw [show (npAstypeValue (mkFloat64 (q0 :: qs)) dt).dtype = dt from rfl] at h
      exact hkO h
    · rw [decide_eq_true_eq] at h
      exact NpKind.noConfusion h)]

/-- Helper (C9, object comparison path): downcasting a non-empty object
array of Python floats to int64 reduces to the exact elementwise
equality acceptance test. -/
theorem downcast_object_clause (qs : List ℚ) (q0 : ℚ) :
    maybe_downcast_numeric (mkObjFloats (q0 :: qs)) (.np .int64) false
      = .ok (if arrayEqAll (npAstypeValue (mkObjFloats (q0 :: qs)) .int64)
                (mkObjFloats (q0 :: qs))
             then npAstypeValue (mkObjFloats (q0 :: qs)) .int64
             else mkObjFloats (q0 :: qs)) := by
  have hcell : ∀ q : ℚ, cellCastError .int64 (Cell.o (.pyFloat (.finite q))) = none :=
    fun q => rfl
  have hok : npAstypeChecked (mkObjFloats (q0 :: qs)) .int64
      = .ok (npAstypeValue (mkObjFloats (q0 :: qs)) .int64) := by
    have hfs : List.findSome? (cellCastError .int64) (mkObjFloats (q0 :: qs)).cells = none :=
      findSome?_map_none _ _ hcell (q0 :: qs)
    unfold npAstypeChecked
    rw [hfs]
  have h5 : (((mkObjFloats (q0 :: qs)).dtype = NpDtype.object
        || (mkObjFloats (q0 :: qs)).dtype.isNumber)
      && ((Cell.o (.pyFloat (.finite q0)))
          :: qs.map (fun q => Cell.o (.pyFloat (.finite q)))).all
          (fun c => !(isnaCell (mkObjFloats (q0 :: qs)).dtype c))) = true := by
    exact Bool.and_eq_true _ _ ▸
      ⟨rfl, all_notna_map .object (fun q => Cell.o (.pyFloat (.finite q)))
        (fun _ => rfl) (q0 :: qs)⟩
  have base := maybe_downcast_numeric_reduce (mkObjFloats (q0 :: qs)) .int64
    (Cell.o (.pyFloat (.finite q0))) (qs.map (fun q => Cell.o (.pyFloat (.finite q)))) rfl
    rfl rfl rfl rfl h5
    (npAstypeValue (mkObjFloats (q0 :: qs)) .int64) hok
  rw [base]
  rw [if_pos ((Bool.or_eq_true _ _) ▸ Or.inr (by rw [decide_eq_true_eq]; rfl))]

/-- C9 (confirmed): in explicit-target downcasting of a non-empty no-null
numeric array, the conversion is accepted exactly when the converted
array reproduces the pre-conversion values — `np.allclose(..., rtol=0)`
closeness for numeric comparisons (float64 source), exact elementwise
equality for object-kind comparisons (object source) — and otherwise the
input array is returned unchanged. -/
theorem downcast_roundtrip_spec (qs : List ℚ) (dt : NpDtype)
    (hne : qs ≠ []) (hdt : dt.isIntegerDtype = true) :
    (maybe_downcast_numeric (mkFloat64 qs) (.np dt) false
      = .ok (if allcloseRtol0 (npAstypeValue (mkFloat64 qs) dt) (mkFloat64 qs)
             then npAstypeValue (mkFloat64 qs) dt
             else mkFloat64 qs))
  ∧ (maybe_downcast_numeric (mkObjFloats qs) (.np .int64) false
      = .ok (if arrayEqAll (npAstypeValue (mkObjFloats qs) .int64) (mkObjFloats qs)
             then npAstypeValue (mkObjFloats qs) .int64
             else mkObjFloats qs)) := by
  obtain ⟨q0, qs', rfl⟩ := List.exists_cons_of_ne_nil hne
  exact ⟨downcast_float_clause qs' q0 dt hdt, downcast_object_clause qs' q0⟩

set_option maxRecDepth 4000 in
/-- C9 (witness): `Downcast([1.0, 2.0, 3.0], int64) = [1, 2, 3]` is
accepted (exact round trip); `Downcast([1.0, 2.5], int64)` is rejected
and returns the input unchanged. -/
theorem downcast_roundtrip_spec_witness :
    maybe_downcast_numeric (mkFloat64 [1, 2, 3]) (.np .int64) false
      = .ok ⟨.int64, [Cell.i 1, Cell.i 2, Cell.i 3]⟩
  ∧ maybe_downcast_numeric (mkFloat64 [1, 5 / 2]) (.np .int64) false
      = .ok (mkFloat64 [1, 5 / 2]) := by
  constructor
  · exact ((downcast_roundtrip_spec [1, 2, 3] .int64 (List.cons_ne_nil _ _)
      (by decide)).1).trans (by with_unfolding_all decide)
  · exact ((downcast_roundtrip_spec [1, 5 / 2] .int64 (List.cons_ne_nil _ _)
      (by decide)).1).trans (by with_unfolding_all decide)

/-! ### C4: idempotence and permutation behaviour of `find_common_type` -/

/-- Membership in the dedup worker: an element appears iff it is in the
remaining input and not among the already-seen elements. -/
theorem orderedDedup_go_mem [DecidableEq α] (l : List α) :
    ∀ (seen : List α) (x : α),
      x ∈ orderedDedup.go l seen ↔ x ∈ l ∧ x ∉ seen := by
  induction l with
  | nil => intro seen x; simp [orderedDedup.go]
  | cons a rest ih =>
    intro seen x
    rw [orderedDedup.go]
    by_cases ha : a ∈ seen
    · rw [if_pos ha, ih]
      constructor
      · rintro ⟨hx1, hx2⟩
        exact ⟨List.mem_cons_of_mem a hx1, hx2⟩
      · rintro ⟨hx1, hx2⟩
        rcases List.mem_cons.mp hx1 with rfl | hx1
        · exact absurd ha hx2
        · exact ⟨hx1, hx2⟩
    · rw [if_neg ha]
      simp only [List.mem_cons, ih]
      constructor
      · rintro (rfl | ⟨hx1, hx2⟩)
        · exact ⟨Or.inl rfl, ha⟩
        · exact ⟨Or.inr hx1, fun hs => hx2 (Or.inr hs)⟩
      · rintro ⟨rfl | hx1, hx2⟩
        · exact Or.inl rfl
        · by_cases hxa : x = a
          · exact Or.inl hxa
          · refine Or.inr ⟨hx1, fun hs => ?_⟩
            rcases hs with h | h
            · exact hxa h
            · exact hx2 h

theorem orderedDedup_go_nodup [DecidableEq α] (l : List α) :
    ∀ seen : List α, (orderedDedup.go l seen).Nodup := by
  induction l with
  | nil => intro seen; rw [orderedDedup.go]; exact List.nodup_nil
  | cons a rest ih =>
    intro seen
    rw [orderedDedup.go]
    by_cases ha : a ∈ seen
    · rw [if_pos ha]
      exact ih seen
    · rw [if_neg ha]
      refine List.nodup_cons.mpr ⟨fun hmem => ?_, ih (a :: seen)⟩
      exact ((orderedDedup_go_mem rest (a :: seen) a).mp hmem).2
        (List.mem_cons_self a seen)

theorem mem_orderedDedup [DecidableEq α] (l : List α) (x : α) :
    x ∈ orderedDedup l ↔ x ∈ l := by
  rw [orderedDedup, orderedDedup_go_mem]
  simp

theorem orderedDedup_nodup [DecidableEq α] (l : List α) : (orderedDedup l).Nodup :=
  orderedDedup_go_nodup l []

/-- Deduplications of permuted lists are permutations of each other. -/
theorem orderedDedup_perm [DecidableEq α] {l1 l2 : List α} (h : l1.Perm l2) :
    (orderedDedup l1).Perm (orderedDedup l2) := by
  rw [List.perm_ext_iff_of_nodup (orderedDedup_nodup l1) (orderedDedup_nodup l2)]
  intro a
  rw [mem_orderedDedup, mem_orderedDedup]
  exact h.mem_iff

theorem perm_all_eq {α : Type} {l1 l2 : List α} (h : l1.Perm l2) (p : α → Bool) :
    l1.all p = l2.all p := by
  rcases hb : l2.all p with _ | _
  · rcases hc : l1.all p with _ | _
    · rfl
    · exfalso
      rw [List.all_eq_true] at hc
      have : l2.all p = true := List.all_eq_true.mpr fun x hx => hc x (h.mem_iff.mpr hx)
      rw [hb] at this
      exact Bool.false_ne_true this
  · exact List.all_eq_true.mpr fun x hx =>
      List.all_eq_true.mp hb x (h.mem_iff.mp hx)

theorem perm_any_eq {α : Type} {l1 l2 : List α} (h : l1.Perm l2) (p : α → Bool) :
    l1.any p = l2.any p := by
  rcases hb : l2.any p with _ | _
  · rcases hc : l1.any p with _ | _
    · rfl
    · exfalso
      obtain ⟨x, hx, hpx⟩ := List.any_eq_true.mp hc
      have : l2.any p = true := List.any_eq_true.mpr ⟨x, h.mem_iff.mp hx, hpx⟩
      rw [hb] at this
      exact Bool.false_ne_true this
  · obtain ⟨x, hx, hpx⟩ := List.any_eq_true.mp hb
    exact List.any_eq_true.mpr ⟨x, h.mem_iff.mpr hx, hpx⟩

theorem find?_congr {α : Type} {p q : α → Bool} (h : ∀ x, p x = q x) :
    ∀ l : List α, l.find? p = l.find? q := by
  intro l
  induction l with
  | nil => rfl
  | cons a rest ih =>
    rcases hpa : p a with _ | _
    · rw [List.find?_cons_of_neg _ (by simp [hpa]),
        List.find?_cons_of_neg _ (by rw [← h a]; simp [hpa])]
      exact ih
    · rw [List.find?_cons_of_pos _ (by simp [hpa]),
        List.find?_cons_of_pos _ (by rw [← h a]; simp [hpa])]

/-- numpy's common-type walk depends only on the multiset of inputs. -/
theorem npFindCommonType_perm {l1 l2 : List NpDtype} (h : l1.Perm l2) :
    npFindCommonType l1 = npFindCommonType l2 := by
  cases l1 with
  | nil =>
    rw [← h.nil_eq]
  | cons a r1 =>
    cases r1 with
    | nil =>
      rw [List.perm_singleton.mp h.symm]
    | cons b r1' =>
      cases l2 with
      | nil => exact absurd h.length_eq (by simp)
      | cons c r2 =>
        cases r2 with
        | nil => exact absurd h.length_eq (by simp)
        | cons d r2' =>
          show (match npTestTypes.find?
                  (fun t => (a :: b :: r1').all fun x => canCastSafe x t) with
                | some t => t
                | none => NpDtype.object)
             = (match npTestTypes.find?
                  (fun t => (c :: d :: r2').all fun x => canCastSafe x t) with
                | some t => t
                | none => NpDtype.object)
          rw [find?_congr (fun t => perm_all_eq h (fun x => canCastSafe x t)) npTestTypes]

/-- A list with two distinct elements fails the "all equal to the first"
test. -/
theorem all_eq_first_false (a : Dtype) (r : List Dtype)
    (hall : ¬ ∀ x ∈ a :: r, x = a) :
    (r.all fun t => decide (t = a)) = false := by
  rcases hb : r.all fun t => decide (t = a) with _ | _
  · rfl
  · exfalso
    apply hall
    intro x hx
    rcases List.mem_cons.mp hx with rfl | hx
    · rfl
    · exact of_decide_eq_true (List.all_eq_true.mp hb x hx)

/-- Helper (C4, idempotence): the join of `n ≥ 1` copies of any dtype is
that dtype. -/
theorem find_common_type_replicate (cap : ℕ → List Dtype → Option Dtype)
    (a : Dtype) (n : ℕ) (hn : 0 < n) :
    find_common_type cap (List.replicate n a) = .ok a := by
  cases n with
  | zero => exact absurd hn (by simp)
  | succ m =>
    rw [List.replicate_succ]
    simp only [find_common_type]
    rw [if_pos (List.all_eq_true.mpr fun x hx =>
      decide_eq_true (List.eq_of_mem_replicate hx))]

/-- Helper (C4, permutation invariance without extension dtypes). -/
theorem find_common_type_perm_noext (cap : ℕ → List Dtype → Option Dtype)
    (l1 l2 : List Dtype) (hp : l1.Perm l2) (h1 : l1 ≠ [])
    (hext : ∀ d ∈ l1, d.isExt = false) :
    find_common_type cap l1 = find_common_type cap l2 := by
  cases l1 with
  | nil => exact absurd rfl h1
  | cons a r1 =>
    cases l2 with
    | nil => exact absurd hp.eq_nil (by simp)
    | cons c r2 =>
      simp only [find_common_type]
      by_cases hall : ∀ x ∈ a :: r1, x = a
      · have hc : c = a := hall c (hp.mem_iff.mpr (List.mem_cons_self c r2))
        subst hc
        rw [if_pos (List.all_eq_true.mpr fun x hx =>
          decide_eq_true (hall x (List.mem_cons_of_mem c hx)))]
        rw [if_pos (List.all_eq_true.mpr fun x hx =>
          decide_eq_true (hall x (hp.mem_iff.mpr (List.mem_cons_of_mem c hx))))]
      · have hall2 : ¬ ∀ x ∈ c :: r2, x = c := by
          intro hK
          apply hall
          have hac : a = c := hK a (hp.mem_iff.mp (List.mem_cons_self a r1))
          intro x hx
          rw [hac]
          exact hK x (hp.mem_iff.mp hx)
        rw [if_neg (show ¬((r1.all fun t => decide (t = a)) = true) from by
            simp [all_eq_first_false a r1 hall]),
          if_neg (show ¬((r2.all fun t => decide (t = c)) = true) from by
            simp [all_eq_first_false c r2 hall2])]
        have hperm : (orderedDedup (a :: r1)).Perm (orderedDedup (c :: r2)) :=
          orderedDedup_perm hp
        have hxu1 : (orderedDedup (a :: r1)).any Dtype.isExt = false := by
          rcases hb : (orderedDedup (a :: r1)).any Dtype.isExt with _ | _
          · rfl
          · exfalso
            obtain ⟨x, hx, hpx⟩ := List.any_eq_true.mp hb
            rw [hext x ((mem_orderedDedup (a :: r1) x).mp hx)] at hpx
            exact Bool.false_ne_true hpx
        have hxu2 : (orderedDedup (c :: r2)).any Dtype.isExt = false := by
          rw [← perm_any_eq hperm Dtype.isExt]
          exact hxu1
        rw [if_neg (show ¬(((orderedDedup (a :: r1)).any Dtype.isExt) = true) from
            fun hcon => by rw [hxu1] at hcon; exact Bool.false_ne_true hcon),
          if_neg (show ¬(((orderedDedup (c :: r2)).any Dtype.isExt) = true) from
            fun hcon => by rw [hxu2] at hcon; exact Bool.false_ne_true hcon)]
        rw [perm_all_eq hperm isDt64D, perm_all_eq hperm isTd64D,
          perm_any_eq hperm isBoolD, perm_any_eq hperm isNumKindD,
          npFindCommonType_perm (hperm.filterMap Dtype.toNp)]

/-- C4 (amended): the n-ary join is idempotent on duplicated input —
`find_common_type` of any number of copies of a dtype returns that dtype
— and is order-independent after deduplication whenever no input is an
extension dtype.  (With extension dtypes the in-order capability
dispatch makes the result order-dependent; see the counterexample.) -/
theorem find_common_type_idem_perm_amended (cap : ℕ → List Dtype → Option Dtype) :
    (∀ (a : Dtype) (n : ℕ), 0 < n →
        find_common_type cap (List.replicate n a) = .ok a)
  ∧ (∀ l1 l2 : List Dtype, l1.Perm l2 → l1 ≠ [] →
        (∀ d ∈ l1, d.isExt = false) →
        find_common_type cap l1 = find_common_type cap l2) :=
  ⟨find_common_type_replicate cap, find_common_type_perm_noext cap⟩

/-- C4 (amended, witness): two copies of int64 join to int64, and the
numeric pair (int64, float64) joins order-independently. -/
theorem find_common_type_idem_perm_amended_witness :
    find_common_type (fun _ _ => none) (List.replicate 2 (Dtype.np .int64))
      = .ok (Dtype.np .int64)
  ∧ find_common_type (fun _ _ => none) [Dtype.np .int64, Dtype.np .float64]
      = find_common_type (fun _ _ => none) [Dtype.np .float64, Dtype.np .int64] :=
  ⟨(find_common_type_idem_perm_amended (fun _ _ => none)).1 (Dtype.np .int64) 2
      (by decide),
   (find_common_type_idem_perm_amended (fun _ _ => none)).2
      [Dtype.np .int64, Dtype.np .float64] [Dtype.np .float64, Dtype.np .int64]
      (List.Perm.swap _ _ _) (by decide) (by decide)⟩

/-- C4 (counterexample): with two extension dtypes whose injected
common-dtype capabilities answer differently (a legal pair of
implementations of the §6 contract), `find_common_type` is
order-dependent: the two permutations of `[ext 1, ext 2]` give int64 and
float64 respectively. -/
theorem find_common_type_perm_counterexample :
    ([Dtype.ext 1, Dtype.ext 2] : List Dtype).Perm [Dtype.ext 2, Dtype.ext 1]
  ∧ find_common_type capEx [Dtype.ext 1, Dtype.ext 2] = .ok (Dtype.np .int64)
  ∧ find_common_type capEx [Dtype.ext 2, Dtype.ext 1] = .ok (Dtype.np .float64)
  ∧ (Except.ok (Dtype.np NpDtype.int64) : Except PdErr Dtype)
      ≠ .ok (Dtype.np NpDtype.float64) :=
  ⟨List.Perm.swap _ _ _, by decide, by decide, by decide⟩

end PandasCast
